import Mathlib

/-!
Verification development for the mastery calculator simulation engine
(mastery_calc.py).  The Python source is shallowly embedded: Python floats
become exact rationals (ℚ), fixed-key dictionaries become structures or
functions out of a finite `Perk` type, and the generator-based run
orchestrator becomes a function producing a `List` of snapshots.

Modelling notes, applied consistently below:
* All numeric literals of the source are translated to the exact rational
  they denote (for example 0.19 becomes 19/100).
* `Simulation` fields that the program never varies (the lab levels, the
  first perk choice, the priority order and the ban list) are embedded as
  the constants they always hold.  The `bhd_bonus` and `golden_combo`
  knobs default to 0 and their guarded branches in `calculate_coins`
  require non-rational exponentiation; they are modelled at their default
  0, so those two dead branches are omitted.
* Python list indexing that would raise `IndexError` is modelled with
  `List.getD`; the in-bounds claims (C9) carry explicit bound predicates.
* `bisect.bisect` on a sorted list equals the count of entries at most
  the probe; it is embedded as `List.countP`.
-/

set_option maxHeartbeats 1000000

namespace MasteryCalc

/-- GAME_SPEED = 5.0 * 0.8. -/
def GAME_SPEED : ℚ := 5 * (8/10)

/-- WAVE_DURATION. -/
def WAVE_DURATION : ℚ := 26

/-- WAVE_COOLDOWN. -/
def WAVE_COOLDOWN : ℚ := 5

/-- TIER_COIN_BONUS, indexed by tier − 1. -/
def TIER_COIN_BONUS : List ℚ :=
  [1, 18/10, 26/10, 34/10, 42/10, 5, 58/10, 66/10, 75/10, 87/10, 103/10,
   122/10, 147/10, 176/10, 213/10, 252/10, 291/10, 33]

/-- TIER_CELL_DROP_MIN. -/
def TIER_CELL_DROP_MIN : List ℚ :=
  [1, 1, 1, 1, 1, 1, 1, 1, 1, 1, 1, 1, 1, 7, 11, 12, 12, 12]

/-- TIER_CELL_DROP_MAX. -/
def TIER_CELL_DROP_MAX : List ℚ :=
  [1, 2, 3, 4, 5, 6, 7, 8, 9, 10, 11, 12, 13, 14, 15, 16, 17, 18]

/-- TIER_REROLL_DROP. -/
def TIER_REROLL_DROP : List ℚ :=
  [1, 2, 3, 4, 6, 8, 12, 18, 25, 32, 40, 45, 50, 55, 60, 65, 70, 75]

/-- TIER_BOSS_PERIOD. -/
def TIER_BOSS_PERIOD : List ℤ :=
  [10, 10, 10, 10, 10, 10, 10, 10, 10, 10, 10, 10, 10, 9, 8, 7, 6, 5]

/-- SPAWN_RATE_SEQUENCE. -/
def SPAWN_RATE_SEQUENCE : List ℚ :=
  [10, 11, 13, 15, 17, 19, 20, 22, 24, 26, 28, 30, 32, 34, 36, 37, 39, 40,
   42, 44, 46, 48, 49, 50, 52, 54, 56]

/-- SPAWN_RATE_WAVES. -/
def SPAWN_RATE_WAVES : List ℕ :=
  [1, 3, 6, 20, 40, 60, 80, 100, 150, 200, 250, 300, 400, 600, 800, 1000,
   1500, 2000, 2500, 3000, 3500, 4000, 4500, 5000, 5500, 6000, 6500]

/-- SPAWN_RATE_FACTOR = 8 * 1.9 / 100. -/
def SPAWN_RATE_FACTOR : ℚ := 8 * (19/10) / 100

/-- SPAWN_CHANCE_TABLE row for fast enemies. -/
def SPAWN_CHANCE_FAST : List ℚ :=
  [5/100, 5/100, 6/100, 7/100, 8/100, 9/100, 10/100, 10/100, 11/100, 11/100,
   12/100, 12/100, 13/100, 13/100, 13/100, 14/100, 15/100, 17/100, 18/100,
   19/100, 20/100, 21/100, 21/100, 22/100, 23/100, 24/100, 24/100]

/-- SPAWN_CHANCE_TABLE row for tank enemies. -/
def SPAWN_CHANCE_TANK : List ℚ :=
  [0, 2/100, 4/100, 6/100, 7/100, 8/100, 8/100, 9/100, 10/100, 11/100,
   12/100, 13/100, 13/100, 14/100, 14/100, 15/100, 16/100, 17/100, 18/100,
   19/100, 19/100, 20/100, 20/100, 20/100, 21/100, 21/100, 22/100]

/-- SPAWN_CHANCE_TABLE row for ranged enemies. -/
def SPAWN_CHANCE_RANGED : List ℚ :=
  [0, 0, 1/100, 2/100, 3/100, 4/100, 5/100, 6/100, 6/100, 7/100, 7/100,
   8/100, 9/100, 10/100, 11/100, 11/100, 13/100, 14/100, 15/100, 16/100,
   17/100, 18/100, 19/100, 19/100, 19/100, 20/100, 21/100]

/-- SPAWN_CHANCE_TABLE row for protector enemies. -/
def SPAWN_CHANCE_PROTECTOR : List ℚ :=
  [0, 0, 0, 0, 0, 0, 1/100, 1/100, 1/100, 2/100, 2/100, 2/100, 3/100, 3/100,
   4/100, 4/100, 4/100, 4/100, 4/100, 4/100, 4/100, 4/100, 4/100, 4/100,
   4/100, 4/100, 4/100]

/-- SPAWN_CHANCE_TABLE derived row for basic enemies:
1 minus the sum of the four explicit rows at the same index. -/
def SPAWN_CHANCE_BASIC (i : ℕ) : ℚ :=
  1 - (SPAWN_CHANCE_FAST.getD i 0 + SPAWN_CHANCE_TANK.getD i 0 +
       SPAWN_CHANCE_RANGED.getD i 0 + SPAWN_CHANCE_PROTECTOR.getD i 0)

/-- COIN_DROP_TABLE values (fixed per enemy category). -/
def COIN_DROP_BASIC : ℚ := 33/100
def COIN_DROP_FAST : ℚ := 2
def COIN_DROP_TANK : ℚ := 4
def COIN_DROP_RANGED : ℚ := 2
def COIN_DROP_PROTECTOR : ℚ := 3
def COIN_DROP_SCATTER : ℚ := 4
def COIN_DROP_VAMPIRE : ℚ := 4
def COIN_DROP_RAY : ℚ := 4
def COIN_DROP_BOSS : ℚ := 0
def COIN_DROP_SABOTEUR : ℚ := 0
def COIN_DROP_COMMANDER : ℚ := 0
def COIN_DROP_OVERCHARGE : ℚ := 0

/-- ELITE_SPAWN_CHANCE_TABLE. -/
def ELITE_SPAWN_CHANCE_TABLE : List ℚ :=
  [0, 1/100, 4/100, 9/100, 15/100, 24/100, 36/100, 48/100, 63/100, 81/100, 1]

/-- ELITE_SINGLE_SPAWN_WAVES_TABLE, indexed by tier − 1. -/
def ELITE_SINGLE_SPAWN_WAVES_TABLE : List (List ℕ) :=
  [[0, 500, 1000, 1500, 2000, 3000, 4000, 5000, 6000, 7000, 8000],
   [0, 450, 900, 1350, 1800, 2700, 3600, 4500, 5400, 6300, 7200],
   [0, 405, 810, 1215, 1620, 2430, 3240, 4050, 4860, 5670, 6480],
   [0, 365, 729, 1094, 1458, 2187, 2916, 3645, 4374, 5103, 5832],
   [0, 328, 656, 984, 1312, 1968, 2624, 3281, 3937, 4593, 5249],
   [0, 295, 590, 886, 1181, 1771, 2362, 2952, 3543, 4133, 4724],
   [0, 266, 531, 797, 1063, 1594, 2126, 2657, 3189, 3720, 4252],
   [0, 239, 478, 717, 957, 1435, 1913, 2391, 2870, 3348, 3826],
   [0, 215, 430, 646, 861, 1291, 1722, 2152, 2583, 3013, 3444],
   [0, 194, 387, 581, 775, 1162, 1550, 1937, 2325, 2712, 3099],
   [0, 174, 349, 523, 697, 1046, 1395, 1743, 2092, 2441, 2789],
   [0, 157, 314, 471, 628, 941, 1255, 1569, 1883, 2197, 2510],
   [0, 141, 282, 424, 565, 847, 1130, 1412, 1695, 1977, 2259],
   [0, 127, 254, 381, 508, 763, 1017, 1271, 1525, 1779, 2033],
   [0, 114, 229, 343, 458, 686, 915, 1144, 1373, 1601, 1830],
   [0, 41, 102, 205, 308, 411, 617, 823, 1029, 1235, 1441],
   [0, 37, 92, 185, 277, 370, 555, 741, 926, 1111, 1297],
   [0, 33, 83, 166, 250, 333, 500, 667, 833, 1000, 1167]]

/-- ELITE_DOUBLE_SPAWN_WAVES_TABLE, indexed by tier − 1. -/
def ELITE_DOUBLE_SPAWN_WAVES_TABLE : List (List ℕ) :=
  [[0, 8000, 9000, 10000, 11000, 12000, 13000, 14000, 15000, 16000, 17000],
   [0, 7200, 8100, 9000, 9900, 10800, 11700, 12600, 13500, 14400, 15300],
   [0, 6480, 7290, 8100, 8910, 9720, 10530, 11340, 12150, 12960, 13770],
   [0, 5832, 6561, 7290, 8019, 8748, 9477, 10206, 10935, 11664, 12393],
   [0, 5249, 5905, 6561, 7217, 7873, 8529, 9185, 9841, 10497, 11153],
   [0, 4724, 5314, 5905, 6495, 7086, 7676, 8267, 8857, 9448, 10038],
   [0, 4252, 4783, 5314, 5846, 6377, 6909, 7440, 7972, 8503, 9034],
   [0, 3826, 4305, 4783, 5261, 5740, 6218, 6696, 7174, 7653, 8131],
   [0, 3444, 3874, 4305, 4735, 5166, 5596, 6027, 6457, 6887, 7318],
   [0, 3099, 3487, 3874, 4262, 4649, 5036, 5424, 5811, 6199, 6586],
   [0, 2789, 3138, 3487, 3835, 4184, 4533, 4881, 5230, 5579, 5928],
   [0, 2510, 2824, 3138, 3452, 3766, 4080, 4394, 4708, 5022, 5336],
   [0, 2259, 2542, 2824, 3107, 3389, 3672, 3954, 4236, 4519, 4801],
   [0, 2033, 2288, 2542, 2796, 3050, 3304, 3559, 3813, 4067, 4321],
   [0, 1830, 2059, 2288, 2516, 2745, 2974, 3203, 3432, 3660, 3889],
   [0, 1441, 1647, 1853, 2058, 2264, 2470, 2676, 2882, 3088, 3294],
   [0, 1297, 1482, 1667, 1853, 2038, 2223, 2408, 2594, 2779, 2964],
   [0, 1167, 1334, 1500, 1667, 1834, 2001, 2168, 2334, 2501, 2668]]

/-- FLEET_MIN_WAVE_SPAWN_TABLE (21 entries in the source; tiers use 0..17). -/
def FLEET_MIN_WAVE_SPAWN_TABLE : List (Option ℕ) :=
  [none, none, none, none, none, none, none, none, none, none, none, none,
   none, some 2495, some 1495, some 995, some 495, some 95, some 45, some 5,
   some 5]

/-- FLEET_SPAWN_PERIOD_WAVE_TABLE. -/
def FLEET_SPAWN_PERIOD_WAVE_TABLE : List (Option ℕ) :=
  [none, none, none, none, none, none, none, none, none, none, none, none,
   none, some 1000, some 750, some 500, some 250, some 100, some 50, some 10,
   some 10]

/-- FLEET_SPAWN_COUNT_TABLE. -/
def FLEET_SPAWN_COUNT_TABLE : List ℚ :=
  [0, 0, 0, 0, 0, 0, 0, 0, 0, 0, 0, 0, 0, 1, 1, 1, 1, 1, 1, 1, 2]

/-- FLEET_REROLL_SHARD_DROP_TABLE. -/
def FLEET_REROLL_SHARD_DROP_TABLE : List ℚ :=
  [0, 0, 0, 0, 0, 0, 0, 0, 0, 0, 0, 0, 0, 1080, 1200, 1350, 1500, 1650,
   1800, 1950, 2100]

/-- FLEET_MODULE_SHARD_DROP_TABLE: (wave threshold, shard value) pairs. -/
def FLEET_MODULE_SHARD_DROP_TABLE : List (ℕ × ℚ) :=
  [(1, 5), (250, 6), (500, 7), (750, 8), (1000, 9), (1250, 10), (1500, 11),
   (1750, 12), (2000, 13), (2250, 14), (2500, 15), (2750, 16), (3000, 17),
   (3250, 18), (3500, 19), (3750, 20), (4000, 21), (4250, 22), (4500, 23),
   (4750, 24), (5000, 25)]

def FLEET_REROLL_SHARD_DROP_CHANCE : ℚ := 8/10
def FLEET_MODULE_SHARD_DROP_CHANCE : ℚ := 2/10
def BOSS_REROLL_SHARD_DROP_CHANCE : ℚ := 15/100
def BOSS_COMMON_MODULE_DROP_CHANCE : ℚ := 3/100
def COMMON_MODULE_VALUE : ℚ := 10
def RARE_MODULE_DROP_CHANCE : ℚ := 15/1000
def RARE_MODULE_VALUE : ℚ := 30
/-- RECOVERY_PACKAGE_CHANCE is 82 percent in the source; the Simulation
field stores the already-divided value. -/
def RECOVERY_PACKAGE_CHANCE : ℚ := 82/100

def STANDARD_PERK_CHANCE : ℚ := 65/100
def ULTIMATE_PERK_CHANCE : ℚ := 20/100
def TRADEOFF_PERK_CHANCE : ℚ := 15/100

def WAVE_SKIP_CHANCE : ℚ := 19/100
def WAVE_SKIP_BONUS : ℚ := 110/100

/-- Mastery tables (levels 0..9). -/
def CASH_MASTERY_TABLE : List ℚ :=
  [4/1000, 8/1000, 12/1000, 16/1000, 20/1000, 24/1000, 28/1000, 32/1000,
   36/1000, 40/1000]

def COIN_MASTERY_TABLE : List ℚ :=
  [103/100, 106/100, 109/100, 112/100, 115/100, 118/100, 121/100, 124/100,
   127/100, 130/100]

def CRITICAL_COIN_MASTERY_TABLE : List ℚ :=
  [1/10, 2/10, 3/10, 4/10, 5/10, 6/10, 7/10, 8/10, 9/10, 1]

def ENEMY_BALANCE_MASTERY_TABLE : List ℚ :=
  [6/100, 12/100, 18/100, 24/100, 30/100, 36/100, 42/100, 48/100, 54/100,
   60/100]

def EXTRA_ORB_MASTERY_TABLE : List ℚ :=
  [104/100, 108/100, 112/100, 116/100, 120/100, 124/100, 128/100, 132/100,
   136/100, 140/100]

def INTRO_SPRINT_MASTERY_TABLE : List ℕ :=
  [180, 360, 540, 720, 900, 1080, 1260, 1440, 1620, 1800]

def RECOVERY_PACKAGE_CHANCE_MASTERY_TABLE : List ℚ :=
  [4/1000, 8/1000, 12/1000, 16/1000, 20/1000, 24/1000, 28/1000, 32/1000,
   36/1000, 40/1000]

/-- WAVE_ACCELERATOR_MASTERY_TABLE, indexed by mastery level. -/
def WAVE_ACCELERATOR_MASTERY_TABLE : List (List ℕ) :=
  [[1, 3, 5, 18, 36, 55, 73, 91, 136, 182, 227, 273, 364, 545, 727, 909,
    1364, 1818, 2273, 2727, 3182, 3636, 4091, 4545, 5000, 5455, 5909],
   [1, 3, 5, 17, 33, 50, 67, 83, 125, 167, 208, 250, 333, 500, 667, 833,
    1250, 1667, 2083, 2500, 2917, 3333, 3750, 4167, 4583, 5000, 5417],
   [1, 2, 5, 15, 31, 46, 62, 77, 115, 154, 192, 231, 308, 462, 615, 769,
    1154, 1538, 1923, 2308, 2692, 3077, 3462, 3846, 4231, 4615, 5000],
   [1, 2, 4, 14, 29, 43, 57, 71, 107, 143, 179, 214, 286, 429, 571, 714,
    1071, 1429, 1786, 2143, 2500, 2857, 3214, 3571, 3929, 4286, 4643],
   [1, 2, 4, 13, 27, 40, 53, 67, 100, 133, 167, 200, 267, 400, 533, 667,
    1000, 1333, 1667, 2000, 2333, 2667, 3000, 3333, 3667, 4000, 4333],
   [1, 2, 4, 13, 25, 38, 50, 63, 94, 125, 156, 188, 250, 375, 500, 625,
    938, 1250, 1563, 1875, 2188, 2500, 2813, 3125, 3438, 3750, 4063],
   [1, 2, 4, 12, 24, 35, 47, 59, 88, 118, 147, 176, 235, 353, 471, 588,
    882, 1176, 1471, 1765, 2059, 2353, 2647, 2941, 3235, 3529, 3824],
   [1, 2, 3, 11, 22, 33, 44, 56, 83, 111, 139, 167, 222, 333, 444, 556,
    833, 1111, 1389, 1667, 1944, 2222, 2500, 2778, 3056, 3333, 3611],
   [1, 2, 3, 11, 21, 32, 42, 53, 79, 105, 132, 158, 211, 316, 421, 526,
    789, 1053, 1316, 1579, 1842, 2105, 2368, 2632, 2895, 3158, 3421],
   [1, 2, 3, 10, 20, 30, 40, 50, 75, 100, 125, 150, 200, 300, 400, 500,
    750, 1000, 1250, 1500, 1750, 2000, 2250, 2500, 2750, 3000, 3250]]

def WAVE_SKIP_MASTERY_TABLE : List ℚ :=
  [10/100, 15/100, 20/100, 25/100, 30/100, 35/100, 40/100, 45/100, 50/100,
   55/100]

/-- The perk identifiers of the three perk dictionaries. -/
inductive Perk where
  | std_health | std_damage | std_coin_bonus | std_defabs | std_cash_bonus
  | std_regen | std_interest | std_lm_damage | std_freeup_chance | std_def_pct
  | std_bounce_shot | std_pwr | std_orbs | std_random_uw | std_game_speed
  | uw_sm | uw_ps | uw_dw | uw_ilm | uw_gt | uw_cl | uw_cf | uw_bh | uw_sl
  | to_tower_damage | to_coin | to_enemy_health | to_enemy_damage
  | to_enemy_range | to_enemy_speed | to_cash | to_regen | to_boss_health
  | to_lifesteal
  deriving DecidableEq, Fintype, Repr

open Perk

/-- STANDARD_PERKS: perk, maximum obtainable quantity. -/
def STANDARD_PERKS : List (Perk × ℕ) :=
  [(std_health, 5), (std_damage, 5), (std_coin_bonus, 5), (std_defabs, 5),
   (std_cash_bonus, 5), (std_regen, 5), (std_interest, 5), (std_lm_damage, 5),
   (std_freeup_chance, 5), (std_def_pct, 5), (std_bounce_shot, 3),
   (std_pwr, 3), (std_orbs, 2), (std_random_uw, 1), (std_game_speed, 1)]

/-- ULTIMATE_PERKS. -/
def ULTIMATE_PERKS : List (Perk × ℕ) :=
  [(uw_sm, 1), (uw_ps, 1), (uw_dw, 1), (uw_ilm, 1), (uw_gt, 1), (uw_cl, 1),
   (uw_cf, 1), (uw_bh, 1), (uw_sl, 1)]

/-- TRADEOFF_PERKS. -/
def TRADEOFF_PERKS : List (Perk × ℕ) :=
  [(to_tower_damage, 1), (to_coin, 1), (to_enemy_health, 1),
   (to_enemy_damage, 1), (to_enemy_range, 1), (to_enemy_speed, 1),
   (to_cash, 1), (to_regen, 1), (to_boss_health, 1), (to_lifesteal, 1)]

/-- ALL_PERKS = merge of the three dictionaries, in merge order. -/
def ALL_PERKS : List (Perk × ℕ) := STANDARD_PERKS ++ ULTIMATE_PERKS ++ TRADEOFF_PERKS

/-- The key list of ALL_PERKS. -/
def allPerkNames : List Perk := ALL_PERKS.map Prod.fst

/-- Quantity of a perk, as recorded in ALL_PERKS. -/
def perkQty (p : Perk) : ℕ := ((ALL_PERKS.find? (fun e => e.1 = p)).getD (p, 0)).2

/-- PERK_BONUSES entries actually read by the engine. -/
def PERK_BONUS_STD_COIN : ℚ := 115/100
def PERK_BONUS_STD_PWR : ℚ := -(2/10)
def PERK_BONUS_STD_GAME_SPEED : ℚ := 1
def PERK_BONUS_STD_FREEUP : ℚ := 5/100
def PERK_BONUS_UW_GT : ℚ := 15/10
def PERK_BONUS_TO_COIN : ℚ := 18/10

/-- PERK_PRIORITY_ORDER. -/
def PERK_PRIORITY_ORDER : List Perk :=
  [std_pwr, std_game_speed, to_coin, uw_gt, std_coin_bonus, std_freeup_chance]

/-- FIRST_PERK_CHOICE. -/
def FIRST_PERK_CHOICE : Perk := std_pwr

/-- PERK_BANS. -/
def PERK_BANS : List Perk :=
  [to_tower_damage, to_enemy_health, to_enemy_range, to_enemy_speed, to_cash,
   to_boss_health, std_defabs, std_interest]

/-- The four reward metric selectors (REWARD_NAMES). -/
inductive RewardKind where
  | coins | cells | rerolls | modules
  deriving DecidableEq, Repr

/-- The free-upgrade categories (attack / defense / utility), as a record of
per-category chances.  The CLI always supplies all three keys. -/
structure FreeUpgrades where
  attack : ℚ
  defense : ℚ
  utility : ℚ
  deriving DecidableEq, Repr

/-- The enemy-level-skip categories (attack / health). -/
structure LevelSkips where
  attack : ℚ
  health : ℚ
  deriving DecidableEq, Repr

/-- Expected spawn counts per enemy category — the fixed key set of
COIN_DROP_TABLE. -/
structure Enemies where
  basic : ℚ
  fast : ℚ
  tank : ℚ
  ranged : ℚ
  protector : ℚ
  scatter : ℚ
  vampire : ℚ
  ray : ℚ
  boss : ℚ
  saboteur : ℚ
  commander : ℚ
  overcharge : ℚ
  deriving DecidableEq, Repr

/-- Events: expected-value counts for one wave. -/
structure Events where
  wave : ℕ := 0
  wave_skip : ℚ := 0
  free_upgrades : FreeUpgrades := ⟨0, 0, 0⟩
  recovery_packages : ℚ := 0
  enemy_level_skips : LevelSkips := ⟨0, 0⟩
  enemies : Enemies := ⟨0, 0, 0, 0, 0, 0, 0, 0, 0, 0, 0, 0⟩
  deriving DecidableEq, Repr

namespace Events

/-- The default Events value (all counts zero). -/
def init : Events := {}

def elite_enemy_count (e : Events) : ℚ :=
  e.enemies.scatter + e.enemies.vampire + e.enemies.ray

def fleet_enemy_count (e : Events) : ℚ :=
  e.enemies.saboteur + e.enemies.commander + e.enemies.overcharge

/-- Each scatter splits in half 4 times: multiplier 2+4+8+16 = 30. -/
def scatter_children_count (e : Events) : ℚ := e.enemies.scatter * 30

def total_enemy_count (e : Events) : ℚ :=
  (e.enemies.basic + e.enemies.fast + e.enemies.tank + e.enemies.ranged +
   e.enemies.protector + e.enemies.scatter + e.enemies.vampire +
   e.enemies.ray + e.enemies.boss + e.enemies.saboteur + e.enemies.commander +
   e.enemies.overcharge) + e.scatter_children_count

/-- Events.__add__ (deep copy of the left operand, then __iadd__): sums every
per-key field; the wave field of the left operand is kept as is, exactly as in
the source, whose __iadd__ never touches self.wave. -/
def add (a b : Events) : Events where
  wave := a.wave
  wave_skip := a.wave_skip + b.wave_skip
  free_upgrades := ⟨a.free_upgrades.attack + b.free_upgrades.attack,
                    a.free_upgrades.defense + b.free_upgrades.defense,
                    a.free_upgrades.utility + b.free_upgrades.utility⟩
  recovery_packages := a.recovery_packages + b.recovery_packages
  enemy_level_skips := ⟨a.enemy_level_skips.attack + b.enemy_level_skips.attack,
                        a.enemy_level_skips.health + b.enemy_level_skips.health⟩
  enemies := ⟨a.enemies.basic + b.enemies.basic, a.enemies.fast + b.enemies.fast,
              a.enemies.tank + b.enemies.tank, a.enemies.ranged + b.enemies.ranged,
              a.enemies.protector + b.enemies.protector,
              a.enemies.scatter + b.enemies.scatter,
              a.enemies.vampire + b.enemies.vampire, a.enemies.ray + b.enemies.ray,
              a.enemies.boss + b.enemies.boss, a.enemies.saboteur + b.enemies.saboteur,
              a.enemies.commander + b.enemies.commander,
              a.enemies.overcharge + b.enemies.overcharge⟩

end Events

/-- Rewards: the four resource totals. -/
structure Rewards where
  coins : ℚ := 0
  elite_cells : ℚ := 0
  reroll_shards : ℚ := 0
  module_shards : ℚ := 0
  deriving DecidableEq, Repr

namespace Rewards

/-- The default Rewards value (all totals zero). -/
def init : Rewards := {}

/-- Rewards.__add__. -/
def add (a b : Rewards) : Rewards :=
  ⟨a.coins + b.coins, a.elite_cells + b.elite_cells,
   a.reroll_shards + b.reroll_shards, a.module_shards + b.module_shards⟩

/-- Rewards.__sub__. -/
def sub (a b : Rewards) : Rewards :=
  ⟨a.coins - b.coins, a.elite_cells - b.elite_cells,
   a.reroll_shards - b.reroll_shards, a.module_shards - b.module_shards⟩

/-- Rewards.__mul__ by a scalar factor. -/
def smul (a : Rewards) (f : ℚ) : Rewards :=
  ⟨a.coins * f, a.elite_cells * f, a.reroll_shards * f, a.module_shards * f⟩

end Rewards

/-- Simulation configuration.  Fields the program never varies are embedded
as constants below (lab levels, first perk choice, priority order, ban list);
bhd_bonus and golden_combo are fixed at their default 0, so the two branches
of calculate_coins guarded by their positivity are omitted as dead code.
Mastery levels are `Option (Fin 10)`: `none` is locked. -/
structure Simulation where
  tier : ℕ := 1
  max_waves : ℕ := 0
  orb_hits : ℚ := 1
  reward : RewardKind := .coins
  free_upgrade_chances : FreeUpgrades := ⟨0, 0, 0⟩
  package_chance : ℚ := RECOVERY_PACKAGE_CHANCE
  enemy_level_skip_chances : LevelSkips := ⟨0, 0⟩
  cash : Option (Fin 10) := none
  coin : Option (Fin 10) := none
  critical_coin : Option (Fin 10) := none
  enemy_balance : Option (Fin 10) := none
  extra_orb : Option (Fin 10) := none
  intro_sprint : Option (Fin 10) := none
  recovery_package : Option (Fin 10) := none
  wave_accelerator : Option (Fin 10) := none
  wave_skip : Option (Fin 10) := none
  deriving DecidableEq, Repr

/-- Simulation.standard_perk_bonus with the constant lab level 25. -/
def standard_perk_bonus : ℚ := 1 + 25/100

/-- Simulation.tradeoff_perk_bonus with the constant lab level 10. -/
def tradeoff_perk_bonus : ℚ := 1 + 10/100

/-- Simulation.perk_option_quantity with the constant lab level 2. -/
def perk_option_quantity : ℕ := 2 + 2

/-- Simulation.perk_waves_required with the constant lab level 25. -/
def perk_waves_required (base : ℚ) : ℚ := base - 25

/-- Perks: the expected count of each perk.  The Python dict (always keyed by
every perk, in ALL_PERKS order) is embedded as an association list in that
fixed key order, so pointwise operations may combine by position. -/
structure Perks where
  perks : List (Perk × ℚ)
  deriving DecidableEq, Repr

namespace Perks

/-- Dictionary read perks.get(p, 0). -/
def get (pk : Perks) (p : Perk) : ℚ :=
  ((pk.perks.find? (fun e => e.1 = p)).getD (p, 0)).2

/-- perks_default_factory: every count zero. -/
def init : Perks := ⟨allPerkNames.map (fun p => (p, 0))⟩

def pwr_bonus (pk : Perks) : ℚ :=
  1 + pk.get std_pwr * PERK_BONUS_STD_PWR * standard_perk_bonus

def game_speed_factor (pk : Perks) : ℚ :=
  (GAME_SPEED + pk.get std_game_speed * PERK_BONUS_STD_GAME_SPEED *
   standard_perk_bonus) / GAME_SPEED

def coin_bonus (pk : Perks) : ℚ :=
  1 + pk.get std_coin_bonus * PERK_BONUS_STD_COIN * standard_perk_bonus *
      (pk.get uw_gt * PERK_BONUS_UW_GT) *
      (pk.get to_coin * PERK_BONUS_TO_COIN * tradeoff_perk_bonus)

def free_upgrade_chance_bonus (pk : Perks) : ℚ :=
  pk.get std_freeup_chance * PERK_BONUS_STD_FREEUP * standard_perk_bonus

/-- sum(perks.perks.values()). -/
def total (pk : Perks) : ℚ := (pk.perks.map Prod.snd).sum

end Perks

/-- PerksConfidence: for each perk, the confidence that it has been selected
1..n times, plus the count of perk-choice events processed.  The dict is an
association list in ALL_PERKS key order, as for Perks. -/
structure PerksConfidence where
  count : ℕ
  perks : List (Perk × List ℚ)
  deriving DecidableEq, Repr

namespace PerksConfidence

/-- Dictionary read confidence.perks[p] (empty for an absent key). -/
def get (c : PerksConfidence) (p : Perk) : List ℚ :=
  ((c.perks.find? (fun e => e.1 = p)).getD (p, [])).2

/-- perks_confidence_default_factory: count 0, all-zero sequences of the
perk's maximum quantity. -/
def init : PerksConfidence :=
  ⟨0, allPerkNames.map (fun p => (p, List.replicate (perkQty p) 0))⟩

/-- PerksConfidence.__add__: pointwise sum of the sequences; the count of the
left operand is kept (the source __iadd__ never touches count). -/
def add (a b : PerksConfidence) : PerksConfidence :=
  ⟨a.count,
   List.zipWith (fun x y => (x.1, List.zipWith (· + ·) x.2 y.2)) a.perks b.perks⟩

/-- PerksConfidence.__mul__ by a scalar factor. -/
def smul (a : PerksConfidence) (f : ℚ) : PerksConfidence :=
  ⟨a.count, a.perks.map (fun e => (e.1, e.2.map (· * f)))⟩

/-- PerksConfidence.reduce: expected count of each perk. -/
def reduce (c : PerksConfidence) : Perks :=
  ⟨c.perks.map (fun e => (e.1, e.2.sum))⟩

end PerksConfidence

/-- PerkOptions: chance of each perk appearing in one option slot, as an
association list in ALL_PERKS key order. -/
structure PerkOptions where
  options : List (Perk × ℚ)
  deriving DecidableEq, Repr

namespace PerkOptions

/-- Dictionary read options[p]. -/
def get (a : PerkOptions) (p : Perk) : ℚ :=
  ((a.options.find? (fun e => e.1 = p)).getD (p, 0)).2

/-- perk_options_default_factory. -/
def init : PerkOptions := ⟨allPerkNames.map (fun p => (p, 0))⟩

/-- PerkOptions.__add__ (pointwise over the shared key order). -/
def add (a b : PerkOptions) : PerkOptions :=
  ⟨List.zipWith (fun x y => (x.1, x.2 + y.2)) a.options b.options⟩

/-- PerkOptions.__mul__ by a scalar. -/
def smul (a : PerkOptions) (f : ℚ) : PerkOptions :=
  ⟨a.options.map (fun e => (e.1, e.2 * f))⟩

/-- sum(self.options.values()). -/
def total (a : PerkOptions) : ℚ := (a.options.map Prod.snd).sum

/-- PerkOptions.inorm: divide by the total when the total is nonzero
(Python's `if magnitude:` truthiness test), otherwise leave unchanged. -/
def inorm (a : PerkOptions) : PerkOptions :=
  if a.total = 0 then a
  else ⟨a.options.map (fun e => (e.1, e.2 / a.total))⟩

/-- PerkOptions.norm: copy then inorm; with value semantics this is inorm. -/
def norm (a : PerkOptions) : PerkOptions := a.inorm

end PerkOptions

/-- max_intro_wave: 100 when intro-sprint is locked, else the mastery table
value. -/
def max_intro_wave (sim : Simulation) : ℕ :=
  match sim.intro_sprint with
  | none => 100
  | some l => INTRO_SPRINT_MASTERY_TABLE.getD l.val 100

/-- Helper for perk_count_at_wave: the source's loop over the three
(perk quantity, waves per perk) phase bands. -/
def perk_count_bands (wave : ℚ) : List (ℚ × ℚ) → ℚ → ℚ → ℚ
  | [], _, perk_count => perk_count
  | (perk_quantity, waves_per_perk) :: rest, last_wave, perk_count =>
      let max_wave := last_wave + perk_quantity * waves_per_perk
      if wave < max_wave then perk_count + (wave - last_wave) / waves_per_perk
      else perk_count_bands wave rest max_wave (perk_count + perk_quantity)

/-- perk_count_at_wave: fractional number of perk-choice events by `wave`. -/
def perk_count_at_wave (sim : Simulation) (perks : Perks) (wave : ℕ) : ℚ :=
  let pwr_bonus := perks.pwr_bonus
  perk_count_bands (wave : ℚ)
    [(20, perk_waves_required 200 * pwr_bonus),
     (20, perk_waves_required 250 * pwr_bonus),
     (10, perk_waves_required 300 * pwr_bonus)] 0 0

/-- perk_category_option_chances: for each non-banned perk of the category,
chance (1 − already offered) × (1 − exhausted), normalized in the category
and scaled by the category factor. -/
def perk_category_option_chances (options : PerkOptions)
    (confidence : PerksConfidence) (category : List (Perk × ℕ)) (factor : ℚ) :
    PerkOptions :=
  let next_options : PerkOptions :=
    ⟨allPerkNames.map (fun p =>
      (p, if (category.map Prod.fst).contains p ∧ ¬ PERK_BANS.contains p then
            (1 - options.get p) * (1 - (confidence.get p).getLastD 0)
          else 0))⟩
  next_options.inorm.smul factor

/-- perk_option_chances: the three category vectors summed and renormalized. -/
def perk_option_chances (options : PerkOptions) (confidence : PerksConfidence) :
    PerkOptions :=
  let sperks := perk_category_option_chances options confidence STANDARD_PERKS
    STANDARD_PERK_CHANCE
  let uperks := perk_category_option_chances options confidence ULTIMATE_PERKS
    ULTIMATE_PERK_CHANCE
  let tperks := perk_category_option_chances options confidence TRADEOFF_PERKS
    TRADEOFF_PERK_CHANCE
  ((sperks.add uperks).add tperks).inorm

/-- Helper accumulating `n` option slots. -/
def perk_option_slots (confidence : PerksConfidence) :
    ℕ → PerkOptions → PerkOptions
  | 0, options => options
  | n + 1, options =>
      perk_option_slots confidence n
        (options.add (perk_option_chances options confidence))

/-- perk_option_set_chances: assemble perk_option_quantity slots; the very
first slot of the very first event is forced to the configured first perk. -/
def perk_option_set_chances (confidence : PerksConfidence) : PerkOptions :=
  if confidence.count = 0 then
    perk_option_slots confidence (perk_option_quantity - 1)
      ⟨allPerkNames.map (fun p => (p, if p = FIRST_PERK_CHOICE then 1 else 0))⟩
  else
    perk_option_slots confidence perk_option_quantity PerkOptions.init

/-- Helper for the priority-resolution loop: for each perk in priority order,
discount every perk not yet removed from the lower-priority set. -/
def priority_discount : List Perk → List Perk → PerkOptions → PerkOptions
  | _, [], options => options
  | removed, high_perk :: rest, options =>
      let removed' := high_perk :: removed
      let high_chance := options.get high_perk
      priority_discount removed' rest
        ⟨options.options.map (fun e =>
          if removed'.contains e.1 then e
          else (e.1, e.2 * (1 - high_chance)))⟩

/-- The selection-chance vector of one perk-choice event: option-set assembly
followed by priority resolution and renormalization.  This is the value the
state transition multiplies into the confidence sequences. -/
def selection_chances (confidence : PerksConfidence) : PerkOptions :=
  (priority_discount [] PERK_PRIORITY_ORDER
    (perk_option_set_chances confidence)).inorm

/-- Helper for the confidence update: bump the first `n` entries of a
sequence by c + (1 − c) × s, leaving the rest unchanged — the source's
loop over range(0, min(len, count)). -/
def bump_confidences (s : ℚ) : ℕ → List ℚ → List ℚ
  | _, [] => []
  | 0, l => l
  | n + 1, c :: rest => (c + (1 - c) * s) :: bump_confidences s n rest

/-- active_perks_confidence: one discrete step of the perk-confidence state
machine. -/
def active_perks_confidence (confidence : PerksConfidence) : PerksConfidence :=
  let options := selection_chances confidence
  ⟨confidence.count + 1,
   confidence.perks.map (fun e =>
     (e.1, bump_confidences (options.get e.1) (confidence.count + 1) e.2))⟩

/-- Total quantity of all perks: sum(ALL_PERKS.values()). -/
def totalPerkQty : ℕ := (ALL_PERKS.map Prod.snd).sum

/-- active_perks_confidence_sequence: the initial state followed by
sum(ALL_PERKS.values()) successive steps, as a list.  The state machine takes
no input from the Simulation besides constants, so the sim argument of the
source generator is dropped. -/
def active_perks_confidence_sequence : List PerksConfidence :=
  (List.range (totalPerkQty + 1)).map
    (fun n => active_perks_confidence^[n] PerksConfidence.init)

/-- PerkWaveEstimator. -/
structure PerkWaveEstimator where
  confidences : List PerksConfidence

namespace PerkWaveEstimator

/-- PerkWaveEstimator.lower.  Out-of-range indexing (an IndexError in the
source) is modelled with getD. -/
def lower (est : PerkWaveEstimator) (perk_count : ℚ) : PerksConfidence :=
  if perk_count < 1 then PerksConfidence.init
  else est.confidences.getD (⌊perk_count - 1⌋).toNat PerksConfidence.init

/-- PerkWaveEstimator.higher.  confidences[-1] on a sorted nonempty list is
its last element, modelled with getLastD. -/
def higher (est : PerkWaveEstimator) (perk_count : ℚ) : PerksConfidence :=
  if (est.confidences.length : ℚ) ≤ perk_count then
    est.confidences.getLastD PerksConfidence.init
  else est.confidences.getD (⌊perk_count⌋).toNat PerksConfidence.init

/-- PerkWaveEstimator.average: linear interpolation between the bracketing
states by the fractional part of the perk count. -/
def average (est : PerkWaveEstimator) (perk_count : ℚ) : PerksConfidence :=
  let lower_confidence := est.lower perk_count
  let upper_confidence := est.higher perk_count
  let lam := perk_count - ⌊perk_count⌋
  lower_confidence.add ((upper_confidence.add (lower_confidence.smul (-1))).smul lam)

/-- Fuel bound for the estimate loop.  The source's while loop terminates
because float iteration reaches a fixpoint; the rational model bounds the
iteration count explicitly.  Every claim proved about estimate is independent
of the bound's value. -/
def estimateFuel : ℕ := 64

/-- The estimate while-loop body: while perk_count < next, advance to the
next discrete state and recompute the target count. -/
def estimate_go (est : PerkWaveEstimator) (sim : Simulation) (wave : ℕ) :
    ℕ → ℚ → Perks → Perks
  | 0, _, perks => perks
  | fuel + 1, perk_count, perks =>
      let next := perk_count_at_wave sim perks wave
      if perk_count < next then
        estimate_go est sim wave fuel next ((est.average next).reduce)
      else perks

/-- PerkWaveEstimator.estimate. -/
def estimate (est : PerkWaveEstimator) (sim : Simulation) (wave : ℕ)
    (perks : Perks) : Perks :=
  estimate_go est sim wave estimateFuel perks.total perks

/-- In-bounds predicate for the list access made by lower: either the guard
returns the initial state, or the floor index is inside the list. -/
def lowerInBounds (est : PerkWaveEstimator) (perk_count : ℚ) : Prop :=
  perk_count < 1 ∨ (⌊perk_count - 1⌋).toNat < est.confidences.length

/-- In-bounds predicate for the list access made by higher: either the clamp
branch applies to a nonempty list, or the floor index is inside the list. -/
def higherInBounds (est : PerkWaveEstimator) (perk_count : ℚ) : Prop :=
  ((est.confidences.length : ℚ) ≤ perk_count ∧ est.confidences ≠ []) ∨
    (⌊perk_count⌋).toNat < est.confidences.length

/-- In-bounds predicate for average: both interpolation endpoints index the
list safely. -/
def averageInBounds (est : PerkWaveEstimator) (perk_count : ℚ) : Prop :=
  est.lowerInBounds perk_count ∧ est.higherInBounds perk_count

/-- Every average call performed by the estimate loop is in bounds. -/
def estimateSafeGo (est : PerkWaveEstimator) (sim : Simulation) (wave : ℕ) :
    ℕ → ℚ → Perks → Prop
  | 0, _, _ => True
  | fuel + 1, perk_count, perks =>
      let next := perk_count_at_wave sim perks wave
      if perk_count < next then
        est.averageInBounds next ∧
          estimateSafeGo est sim wave fuel next ((est.average next).reduce)
      else True

end PerkWaveEstimator

/-- The estimator precomputed by simulate_run for a scenario. -/
def run_estimator : PerkWaveEstimator := ⟨active_perks_confidence_sequence⟩

/-- spawn_rate_index: the greatest row index whose minimum wave is at most
the current wave.  On a sorted row this is the count of entries ≤ wave minus
one (the source's max over a comprehension; empty only for wave 0, which
simulate_wave is never called with). -/
def spawn_rate_index (sim : Simulation) (wave : ℕ) : ℕ :=
  let spawn_rate_row :=
    match sim.wave_accelerator with
    | none => SPAWN_RATE_WAVES
    | some l => WAVE_ACCELERATOR_MASTERY_TABLE.getD l.val []
  spawn_rate_row.countP (fun min_wave => min_wave ≤ wave) - 1

/-- elite_spawn_count.  bisect.bisect(table, value, lo=1) − 1 on these sorted
tables whose first entry is 0 equals the count of entries ≤ value minus one. -/
def elite_spawn_count (sim : Simulation) (wave : ℕ) : ℚ :=
  let single_index :=
    ((ELITE_SINGLE_SPAWN_WAVES_TABLE.getD (sim.tier - 1) []).countP
      (fun w => w ≤ wave)) - 1
  let double_index :=
    ((ELITE_DOUBLE_SPAWN_WAVES_TABLE.getD (sim.tier - 1) []).countP
      (fun w => w ≤ wave)) - 1
  let single_chance := ELITE_SPAWN_CHANCE_TABLE.getD single_index 0
  let double_chance := ELITE_SPAWN_CHANCE_TABLE.getD double_index 0
  let combined_chance := single_chance * (1 + double_chance)
  let double_spawn :=
    match sim.enemy_balance with
    | none => 0
    | some l => ENEMY_BALANCE_MASTERY_TABLE.getD l.val 0
  combined_chance * (1 + double_spawn)

/-- fleet_spawn_count.  The table entries for tiers with fleets are all
present, matching the source's asserts; getD defaults are never reached for
tiers 1..18. -/
def fleet_spawn_count (sim : Simulation) (wave : ℕ) : ℚ :=
  match FLEET_MIN_WAVE_SPAWN_TABLE.getD (sim.tier - 1) none with
  | none => 0
  | some min_wave =>
      if min_wave > wave then 0
      else
        let spawn_period :=
          (FLEET_SPAWN_PERIOD_WAVE_TABLE.getD (sim.tier - 1) none).getD 1
        if (wave - min_wave) % spawn_period = 0 then
          FLEET_SPAWN_COUNT_TABLE.getD (sim.tier - 1) 0
        else 0

/-- fleet_shard_reward: bisect.bisect over the module-shard drop table keyed
by wave threshold, clamped to the last entry.  On this sorted table the
bisect index is the count of thresholds ≤ wave. -/
def fleet_shard_reward (sim : Simulation) (wave : ℕ) : ℚ :=
  (FLEET_MODULE_SHARD_DROP_TABLE.getD
    (min (FLEET_MODULE_SHARD_DROP_TABLE.countP (fun e => e.1 ≤ wave))
      (FLEET_MODULE_SHARD_DROP_TABLE.length - 1)) (0, 0)).2

/-- The boss period of the scenario's tier. -/
def boss_period (sim : Simulation) : ℤ := TIER_BOSS_PERIOD.getD (sim.tier - 1) 10

/-- simulate_wave: pure map from (config, perk state, wave) to Events.
Python's modulo on possibly-negative operands is Int.emod, so the
wave − 1 test uses integers. -/
def simulate_wave (sim : Simulation) (perks : Perks) (wave : ℕ) : Events :=
  let spawn_index := spawn_rate_index sim wave
  let spawn_rate := SPAWN_RATE_SEQUENCE.getD spawn_index 0
  let common_spawns := WAVE_DURATION * spawn_rate * SPAWN_RATE_FACTOR
  let elite_spawns := elite_spawn_count sim wave
  let fleet_spawns := fleet_spawn_count sim wave
  let fleet_children_count : ℚ := (10 + 14) / 2
  let boss_spawn : ℚ := if (wave : ℤ) % boss_period sim = 0 then 1 else 0
  let package_spawn : ℚ :=
    if ((wave : ℤ) - 1) % boss_period sim = 0 then 1 else sim.package_chance
  let double_skip_chance : ℚ :=
    match sim.wave_skip with
    | none => 0
    | some l => WAVE_SKIP_CHANCE * WAVE_SKIP_MASTERY_TABLE.getD l.val 0
  let wave_skip_chance :=
    double_skip_chance + WAVE_SKIP_CHANCE * (1 - double_skip_chance)
  let free_upgrade_bonus := perks.free_upgrade_chance_bonus
  { wave := wave
    wave_skip := wave_skip_chance
    free_upgrades := ⟨sim.free_upgrade_chances.attack + free_upgrade_bonus,
                      sim.free_upgrade_chances.defense + free_upgrade_bonus,
                      sim.free_upgrade_chances.utility + free_upgrade_bonus⟩
    recovery_packages := package_spawn
    enemy_level_skips := sim.enemy_level_skip_chances
    enemies :=
      { basic := common_spawns * SPAWN_CHANCE_BASIC spawn_index
        fast := common_spawns * SPAWN_CHANCE_FAST.getD spawn_index 0 +
                (fleet_spawns / 3) * fleet_children_count
        tank := common_spawns * SPAWN_CHANCE_TANK.getD spawn_index 0 +
                (fleet_spawns / 3) * fleet_children_count
        ranged := common_spawns * SPAWN_CHANCE_RANGED.getD spawn_index 0 +
                  (fleet_spawns / 3) * fleet_children_count
        protector := common_spawns * SPAWN_CHANCE_PROTECTOR.getD spawn_index 0
        scatter := elite_spawns / 3
        vampire := elite_spawns / 3
        ray := elite_spawns / 3
        boss := boss_spawn
        saboteur := fleet_spawns / 3
        commander := fleet_spawns / 3
        overcharge := fleet_spawns / 3 } }

/-- wave_skip_bonus_lerp. -/
def wave_skip_bonus_lerp (events : Events) (noskip skip : ℚ) : ℚ :=
  (1 - events.wave_skip) * noskip + events.wave_skip * skip

/-- calculate_coins.  The bhd_bonus and golden_combo branches are dead at
their embedded default 0 and omitted (see the Simulation doc comment);
previous_events is read only by the omitted golden-combo branch. -/
def calculate_coins (sim : Simulation) (perks : Perks) (events : Events)
    (previous_events : Events) (previous_rewards : Rewards) : ℚ :=
  let _ := previous_events
  let coin_bonus₀ := TIER_COIN_BONUS.getD (sim.tier - 1) 0 * perks.coin_bonus
  let coin_bonus :=
    match sim.coin with
    | none => coin_bonus₀
    | some l => coin_bonus₀ * COIN_MASTERY_TABLE.getD l.val 0
  let orb_bonus : ℚ :=
    match sim.extra_orb with
    | none => 1
    | some l => 1 * (1 + (EXTRA_ORB_MASTERY_TABLE.getD l.val 0 - 1) * sim.orb_hits)
  let basic_drop :=
    match sim.critical_coin with
    | none => COIN_DROP_BASIC * coin_bonus
    | some l =>
        COIN_DROP_BASIC * coin_bonus *
          (1 + CRITICAL_COIN_MASTERY_TABLE.getD l.val 0)
  let coins :=
    events.enemies.basic * basic_drop * orb_bonus +
    events.enemies.fast * (COIN_DROP_FAST * coin_bonus) * orb_bonus +
    events.enemies.tank * (COIN_DROP_TANK * coin_bonus) * orb_bonus +
    events.enemies.ranged * (COIN_DROP_RANGED * coin_bonus) * orb_bonus +
    events.enemies.protector * (COIN_DROP_PROTECTOR * coin_bonus) * orb_bonus +
    events.enemies.scatter * (COIN_DROP_SCATTER * coin_bonus) * orb_bonus +
    events.enemies.vampire * (COIN_DROP_VAMPIRE * coin_bonus) * orb_bonus +
    events.enemies.ray * (COIN_DROP_RAY * coin_bonus) * orb_bonus +
    events.enemies.boss * (COIN_DROP_BOSS * coin_bonus) * orb_bonus +
    events.enemies.saboteur * (COIN_DROP_SABOTEUR * coin_bonus) * orb_bonus +
    events.enemies.commander * (COIN_DROP_COMMANDER * coin_bonus) * orb_bonus +
    events.enemies.overcharge * (COIN_DROP_OVERCHARGE * coin_bonus) * orb_bonus +
    events.scatter_children_count * (COIN_DROP_SCATTER * coin_bonus)
  wave_skip_bonus_lerp events coins (previous_rewards.coins * WAVE_SKIP_BONUS)

/-- calculate_cells. -/
def calculate_cells (sim : Simulation) (events : Events)
    (previous_rewards : Rewards) : ℚ :=
  let cells_per_elite :=
    (TIER_CELL_DROP_MIN.getD (sim.tier - 1) 0 +
     TIER_CELL_DROP_MAX.getD (sim.tier - 1) 0) / 2
  let total_elite_count :=
    events.enemies.scatter + events.enemies.vampire + events.enemies.ray
  let elite_cells := total_elite_count * cells_per_elite
  wave_skip_bonus_lerp events elite_cells
    (previous_rewards.elite_cells * WAVE_SKIP_BONUS)

/-- calculate_rerolls. -/
def calculate_rerolls (sim : Simulation) (events : Events) : ℚ :=
  let rerolls_per_boss := TIER_REROLL_DROP.getD (sim.tier - 1) 0
  let boss_rerolls :=
    events.enemies.boss * BOSS_REROLL_SHARD_DROP_CHANCE * rerolls_per_boss
  let fleet_rerolls :=
    events.fleet_enemy_count * FLEET_REROLL_SHARD_DROP_CHANCE *
      FLEET_REROLL_SHARD_DROP_TABLE.getD (sim.tier - 1) 0
  let reroll_shards := boss_rerolls + fleet_rerolls
  match sim.cash with
  | none => reroll_shards
  | some l =>
      let elite_rerolls :=
        events.elite_enemy_count * CASH_MASTERY_TABLE.getD l.val 0 *
          (rerolls_per_boss / 2)
      reroll_shards + wave_skip_bonus_lerp events elite_rerolls 0

/-- calculate_modules. -/
def calculate_modules (sim : Simulation) (events : Events) : ℚ :=
  let common_modules₀ := events.enemies.boss * BOSS_COMMON_MODULE_DROP_CHANCE
  let common_modules :=
    match sim.recovery_package with
    | none => common_modules₀
    | some l =>
        let package_modules :=
          events.recovery_packages *
            RECOVERY_PACKAGE_CHANCE_MASTERY_TABLE.getD l.val 0
        common_modules₀ + wave_skip_bonus_lerp events package_modules 0
  let module_shards := common_modules * COMMON_MODULE_VALUE
  let rare_modules := events.enemies.boss * RARE_MODULE_DROP_CHANCE
  let module_shards := module_shards + rare_modules * RARE_MODULE_VALUE
  let fleet_shards :=
    events.fleet_enemy_count * FLEET_MODULE_SHARD_DROP_CHANCE *
      fleet_shard_reward sim events.wave
  module_shards + fleet_shards

/-- calculate_rewards. -/
def calculate_rewards (sim : Simulation) (perks : Perks) (events : Events)
    (previous_events : Events) (previous_rewards : Rewards) : Rewards where
  coins := calculate_coins sim perks events previous_events previous_rewards
  elite_cells := calculate_cells sim events previous_rewards
  reroll_shards := calculate_rerolls sim events
  module_shards := calculate_modules sim events

/-- SimulationWaveResult: one snapshot per simulated wave. -/
structure SimulationWaveResult where
  wave : ℕ
  elapsed_time : ℚ
  cumulative_events : Events
  cumulative_rewards : Rewards
  deriving DecidableEq, Repr

/-- The mutable local state of simulate_run between waves. -/
structure RunState where
  elapsed_time : ℚ
  cumulative_events : Events
  cumulative_rewards : Rewards
  previous_events : Events
  previous_rewards : Rewards
  perks : Perks

/-- Initial run state: zero elapsed time, zero cumulative state. -/
def RunState.start : RunState :=
  ⟨0, Events.init, Rewards.init, Events.init, Rewards.init, Perks.init⟩

/-- The events of one intro-sprint wave: wave 1 and every 10th wave are forced
not skipped with a guaranteed boss; all other intro waves are forced fully
skipped with no boss. -/
def intro_events (sim : Simulation) (perks : Perks) (wave : ℕ) : Events :=
  let events := simulate_wave sim perks wave
  if wave = 1 ∨ wave % 10 = 0 then
    { events with wave_skip := 0, enemies := { events.enemies with boss := 1 } }
  else
    { events with wave_skip := 1, enemies := { events.enemies with boss := 0 } }

/-- One iteration of the intro-sprint loop of simulate_run. -/
def introStep (sim : Simulation) (est : PerkWaveEstimator) (st : RunState)
    (wave : ℕ) : RunState × SimulationWaveResult :=
  let perks := est.estimate sim wave st.perks
  let events := intro_events sim perks wave
  let rewards₀ := calculate_rewards sim perks events st.previous_events
    st.previous_rewards
  let rewards : Rewards := ⟨0, rewards₀.elite_cells * (2/10), 0, 0⟩
  let wave_time := (WAVE_DURATION + WAVE_COOLDOWN) * (1 - events.wave_skip) /
    (GAME_SPEED * perks.game_speed_factor)
  let cumulative_events := st.cumulative_events.add events
  let cumulative_rewards := st.cumulative_rewards.add rewards
  let elapsed_time := st.elapsed_time + wave_time
  (⟨elapsed_time, cumulative_events, cumulative_rewards, events, rewards, perks⟩,
   ⟨wave, elapsed_time, cumulative_events, cumulative_rewards⟩)

/-- The first regular wave after intro sprint (forced not skipped). -/
def transitionStep (sim : Simulation) (est : PerkWaveEstimator) (st : RunState)
    (wave : ℕ) : RunState × SimulationWaveResult :=
  let perks := est.estimate sim wave st.perks
  let events₀ := simulate_wave sim perks wave
  let events := { events₀ with wave_skip := 0 }
  let rewards := calculate_rewards sim perks events st.previous_events
    st.previous_rewards
  let wave_time := (WAVE_DURATION + WAVE_COOLDOWN) /
    (GAME_SPEED * perks.game_speed_factor)
  let cumulative_events := st.cumulative_events.add events
  let cumulative_rewards := st.cumulative_rewards.add rewards
  let elapsed_time := st.elapsed_time + wave_time
  (⟨elapsed_time, cumulative_events, cumulative_rewards, events, rewards, perks⟩,
   ⟨wave, elapsed_time, cumulative_events, cumulative_rewards⟩)

/-- One iteration of the regular-wave loop of simulate_run. -/
def regularStep (sim : Simulation) (est : PerkWaveEstimator) (st : RunState)
    (wave : ℕ) : RunState × SimulationWaveResult :=
  let perks := est.estimate sim wave st.perks
  let events := simulate_wave sim perks wave
  let rewards := calculate_rewards sim perks events st.previous_events
    st.previous_rewards
  let wave_time := (WAVE_DURATION + WAVE_COOLDOWN) * (1 - events.wave_skip) /
    (GAME_SPEED * perks.game_speed_factor)
  let cumulative_events := st.cumulative_events.add events
  let cumulative_rewards := st.cumulative_rewards.add rewards
  let elapsed_time := st.elapsed_time + wave_time
  (⟨elapsed_time, cumulative_events, cumulative_rewards, events, rewards, perks⟩,
   ⟨wave, elapsed_time, cumulative_events, cumulative_rewards⟩)

/-- Drive a step function over a list of wave indices, accumulating the run
state and collecting one snapshot per wave. -/
def foldSteps (step : RunState → ℕ → RunState × SimulationWaveResult)
    (st : RunState) : List ℕ → RunState × List SimulationWaveResult
  | [] => (st, [])
  | w :: ws =>
      let next := step st w
      let rest := foldSteps step next.1 ws
      (rest.1, next.2 :: rest.2)

/-- simulate_run: the wave-0 snapshot, the intro-sprint waves
1..max_intro_wave−1, the forced transition wave max_intro_wave, and the
regular waves max_intro_wave+1..max_waves.  The generator of the source is
materialized as the list of all yielded snapshots. -/
def simulate_run (sim : Simulation) : List SimulationWaveResult :=
  let est := run_estimator
  let intro_wave_count := max_intro_wave sim
  let snap0 : SimulationWaveResult := ⟨0, 0, Events.init, Rewards.init⟩
  let intro :=
    foldSteps (introStep sim est) RunState.start
      (List.range' 1 (intro_wave_count - 1))
  let transition := transitionStep sim est intro.1 intro_wave_count
  let regular :=
    foldSteps (regularStep sim est) transition.1
      (List.range' (intro_wave_count + 1) (sim.max_waves - intro_wave_count))
  snap0 :: intro.2 ++ transition.2 :: regular.2

/-- SimulationRunResult. -/
structure SimulationRunResult where
  wave_results : List SimulationWaveResult
  total : Option ℚ := none
  relative : Option ℚ := none
  roi : Option ℚ := none
  deriving DecidableEq, Repr

/-- reward_value: project the selected reward metric. -/
def reward_value (sim : Simulation) (rewards : Rewards) : ℚ :=
  match sim.reward with
  | .coins => rewards.coins
  | .cells => rewards.elite_cells
  | .rerolls => rewards.reroll_shards
  | .modules => rewards.module_shards

/-- The default snapshot used to model indexing wave_results[-1] of an empty
list (an IndexError in the source; never reached for runs produced by
simulate_run). -/
def defaultSnap : SimulationWaveResult := ⟨0, 0, Events.init, Rewards.init⟩

/-- Final elapsed time of a run: wave_results[-1].elapsed_time. -/
def lastElapsed (r : SimulationRunResult) : ℚ :=
  (r.wave_results.getLastD defaultSnap).elapsed_time

/-- truncate_sims_to_shortest.  Python's min() of the non-skipped final
times (an error on an all-skipped batch, modelled by getD 0); bisect over
the elapsed-sorted snapshot list is the count of snapshots at or before the
minimum time. -/
def truncate_sims_to_shortest
    (sim_results : List (Simulation × Option SimulationRunResult)) :
    List (Simulation × Option SimulationRunResult) :=
  let min_time :=
    ((sim_results.filterMap (fun sr => sr.2.map lastElapsed)).min?).getD 0
  sim_results.map (fun sr =>
    match sr.2 with
    | none => (sr.1, none)
    | some run_result =>
        let index := run_result.wave_results.countP
          (fun x => x.elapsed_time ≤ min_time)
        let wave_results := run_result.wave_results.take index
        let total := reward_value sr.1
          (wave_results.getLastD defaultSnap).cumulative_rewards
        (sr.1, some { run_result with wave_results := wave_results,
                                      total := some total }))

/-- Number of iterations of the extend_sims while loop: the least k with
last_elapsed + wave_time × k ≥ max_time. -/
def extend_steps (max_time last_elapsed wave_time : ℚ) : ℕ :=
  if max_time ≤ last_elapsed then 0
  else (⌈(max_time - last_elapsed) / wave_time⌉).toNat

/-- extend_sims: pad each shorter run with synthetic snapshots at fixed
wave-duration increments, each adding the run's average per-wave-duration
reward rate, until the batch maximum final time is reached.  The while loop
of the source is expressed in closed form: the k-th synthetic snapshot copies
the last real snapshot with elapsed time advanced by k wave durations and
rewards advanced by k average increments. -/
def extend_sims (sim_results : List (Simulation × Option SimulationRunResult)) :
    List (Simulation × Option SimulationRunResult) :=
  let max_time :=
    ((sim_results.filterMap (fun sr => sr.2.map lastElapsed)).max?).getD 0
  sim_results.map (fun sr =>
    match sr.2 with
    | none => (sr.1, none)
    | some run_result =>
        let wave_time := WAVE_DURATION + WAVE_COOLDOWN
        let last_wave := run_result.wave_results.getLastD defaultSnap
        let total_rewards := last_wave.cumulative_rewards
        let duration := last_wave.elapsed_time
        let avg_rewards : Rewards :=
          ⟨total_rewards.coins / duration * wave_time,
           total_rewards.elite_cells / duration * wave_time,
           total_rewards.reroll_shards / duration * wave_time,
           total_rewards.module_shards / duration * wave_time⟩
        let k := extend_steps max_time duration wave_time
        let extended := (List.range k).map (fun i =>
          { last_wave with
              elapsed_time := last_wave.elapsed_time + wave_time * (i + 1),
              cumulative_rewards :=
                last_wave.cumulative_rewards.add (avg_rewards.smul (i + 1)) })
        let wave_results := run_result.wave_results ++ extended
        let total := reward_value sr.1
          (wave_results.getLastD defaultSnap).cumulative_rewards
        (sr.1, some { run_result with wave_results := wave_results,
                                      total := some total }))

/-! ## Named concrete configurations used in concrete statements -/

/-- Tier 1, max_waves 0, every mastery locked (all structure defaults). -/
def locked_tier1_sim : Simulation := {}

/-! ## Claim C10: inorm / norm on zero-sum options -/

/-- C10: a PerkOptions value whose entries sum to zero is returned unchanged
by both inorm and norm; normalization never divides by a zero total, so it is
total for every input. -/
theorem c10_inorm_zero_sum_unchanged (o : PerkOptions) (h : o.total = 0) :
    o.inorm = o ∧ o.norm = o := by
  constructor <;> simp [PerkOptions.inorm, PerkOptions.norm, h]

/-- Witness for C10 at the all-zero options value. -/
theorem c10_inorm_zero_sum_unchanged_witness :
    PerkOptions.init.total = 0 ∧
      PerkOptions.init.inorm = PerkOptions.init ∧
      PerkOptions.init.norm = PerkOptions.init := by
  have h : PerkOptions.init.total = 0 := by
    simp [PerkOptions.total, PerkOptions.init, Function.comp_def,
      List.map_const', List.sum_replicate]
  exact ⟨h, (c10_inorm_zero_sum_unchanged PerkOptions.init h).1,
    (c10_inorm_zero_sum_unchanged PerkOptions.init h).2⟩

/-! ## Claim C6: Events addition -/

/-- C6 (amended): Events addition sums every per-key field — wave_skip, the
three free-upgrade keys, recovery_packages, the two enemy-level-skip keys and
all twelve enemy keys — while the wave field of the result equals the wave of
the left operand, not the sum. -/
theorem c6_events_add_pointwise (a b : Events) :
    (a.add b).wave_skip = a.wave_skip + b.wave_skip ∧
    (a.add b).free_upgrades.attack = a.free_upgrades.attack + b.free_upgrades.attack ∧
    (a.add b).free_upgrades.defense = a.free_upgrades.defense + b.free_upgrades.defense ∧
    (a.add b).free_upgrades.utility = a.free_upgrades.utility + b.free_upgrades.utility ∧
    (a.add b).recovery_packages = a.recovery_packages + b.recovery_packages ∧
    (a.add b).enemy_level_skips.attack = a.enemy_level_skips.attack + b.enemy_level_skips.attack ∧
    (a.add b).enemy_level_skips.health = a.enemy_level_skips.health + b.enemy_level_skips.health ∧
    (a.add b).enemies.basic = a.enemies.basic + b.enemies.basic ∧
    (a.add b).enemies.fast = a.enemies.fast + b.enemies.fast ∧
    (a.add b).enemies.tank = a.enemies.tank + b.enemies.tank ∧
    (a.add b).enemies.ranged = a.enemies.ranged + b.enemies.ranged ∧
    (a.add b).enemies.protector = a.enemies.protector + b.enemies.protector ∧
    (a.add b).enemies.scatter = a.enemies.scatter + b.enemies.scatter ∧
    (a.add b).enemies.vampire = a.enemies.vampire + b.enemies.vampire ∧
    (a.add b).enemies.ray = a.enemies.ray + b.enemies.ray ∧
    (a.add b).enemies.boss = a.enemies.boss + b.enemies.boss ∧
    (a.add b).enemies.saboteur = a.enemies.saboteur + b.enemies.saboteur ∧
    (a.add b).enemies.commander = a.enemies.commander + b.enemies.commander ∧
    (a.add b).enemies.overcharge = a.enemies.overcharge + b.enemies.overcharge ∧
    (a.add b).wave = a.wave :=
  ⟨rfl, rfl, rfl, rfl, rfl, rfl, rfl, rfl, rfl, rfl, rfl, rfl, rfl, rfl, rfl,
   rfl, rfl, rfl, rfl, rfl⟩

/-- Counterexample to C6 as stated: the wave field does not combine by
summation — adding Events at waves 1 and 2 yields wave 1, not 3. -/
theorem c6_events_add_wave_counterexample :
    (Events.add { Events.init with wave := 1 }
      { Events.init with wave := 2 }).wave ≠ 1 + 2 := by
  decide

/-! ## Claim C4: recovery-package trigger probability -/

/-- A boss wave for the scenario's tier: the wave index is a multiple of the
tier's boss period (integer arithmetic, matching Python's modulo). -/
def is_boss_wave (sim : Simulation) (z : ℤ) : Prop := z % boss_period sim = 0

instance (sim : Simulation) (z : ℤ) : Decidable (is_boss_wave sim z) := by
  unfold is_boss_wave; infer_instance

/-- C4: the recovery-package trigger probability of simulate_wave is 1
exactly on a wave whose predecessor is a boss wave, and the configured base
package chance on every other wave; the boss count itself is 1 exactly on
boss waves. -/
theorem c4_recovery_package_probability (sim : Simulation) (perks : Perks)
    (wave : ℕ) :
    ((simulate_wave sim perks wave).recovery_packages =
      if is_boss_wave sim ((wave : ℤ) - 1) then 1 else sim.package_chance) ∧
    ((simulate_wave sim perks wave).enemies.boss =
      if is_boss_wave sim (wave : ℤ) then 1 else 0) := by
  constructor <;> simp [simulate_wave, is_boss_wave]

/-! ## Claim C5: fleet module-shard lookup -/

/-- The shard value of the first table entry whose wave threshold is strictly
greater than the wave, or of the last entry when no threshold exceeds the
wave — the lookup fleet_shard_reward actually performs. -/
def fleet_shard_first_above (wave : ℕ) : ℚ :=
  ((FLEET_MODULE_SHARD_DROP_TABLE.find? (fun e => wave < e.1)).getD
    (FLEET_MODULE_SHARD_DROP_TABLE.getLastD (0, 0))).2

/-- The shard value of the smallest wave-threshold entry that is at least the
wave (with the same last-entry fallback) — the lookup the claim describes. -/
def fleet_shard_smallest_ge (wave : ℕ) : ℚ :=
  ((FLEET_MODULE_SHARD_DROP_TABLE.find? (fun e => wave ≤ e.1)).getD
    (FLEET_MODULE_SHARD_DROP_TABLE.getLastD (0, 0))).2

/-- On a nonempty list the default of getLastD is irrelevant. -/
theorem getLastD_congr {α : Type} (l : List α) (h : l ≠ []) (d₁ d₂ : α) :
    l.getLastD d₁ = l.getLastD d₂ := by
  rw [List.getLastD_eq_getLast?, List.getLastD_eq_getLast?]
  obtain ⟨a, ha⟩ := Option.isSome_iff_exists.1 (List.getLast?_isSome.2 h)
  rw [ha]
  rfl

/-- Clamped bisect on a strictly key-sorted nonempty table equals the lookup
of the first entry with key strictly above the probe, defaulting to the last
entry. -/
theorem bisect_clamped_eq_find_above (w : ℕ) :
    ∀ l : List (ℕ × ℚ), l ≠ [] →
      l.Pairwise (fun a b => a.1 < b.1) →
      l.getD (min (l.countP (fun e => e.1 ≤ w)) (l.length - 1)) (0, 0) =
        (l.find? (fun e => w < e.1)).getD (l.getLastD (0, 0))
  | [], h, _ => absurd rfl h
  | x :: t, _, hp => by
    rcases Nat.lt_or_ge w x.1 with hlt | hge
    · have hcount : (x :: t).countP (fun e => decide (e.1 ≤ w)) = 0 := by
        rw [List.countP_eq_zero]
        intro a ha
        rcases List.mem_cons.1 ha with rfl | hmem
        · simpa using Nat.not_le.2 hlt
        · have : x.1 < a.1 := (List.pairwise_cons.1 hp).1 a hmem
          simpa using Nat.not_le.2 (Nat.lt_trans hlt this)
      simp [hcount, List.find?, hlt]
    · have hx : ¬ (w < x.1) := Nat.not_lt.2 hge
      cases t with
      | nil => simp [List.countP_cons, List.find?, hx, hge]
      | cons y u =>
        have ih := bisect_clamped_eq_find_above w (y :: u) (by simp)
          (List.Pairwise.sublist (List.sublist_cons_self x (y :: u)) hp)
        have hcount : (x :: y :: u).countP (fun e => decide (e.1 ≤ w)) =
            (y :: u).countP (fun e => decide (e.1 ≤ w)) + 1 := by
          rw [List.countP_cons]
          simp [hge]
        have hlen : (x :: y :: u).length - 1 = (y :: u).length := by simp
        have hmin : min ((y :: u).countP (fun e => decide (e.1 ≤ w)) + 1)
            ((y :: u).length) =
            min ((y :: u).countP (fun e => decide (e.1 ≤ w)))
              ((y :: u).length - 1) + 1 := by
          have hl : 1 ≤ (y :: u).length := by simp
          omega
        rw [hcount, hlen, hmin, List.getD_cons_succ]
        rw [List.find?_cons_of_neg _ (by simpa using hx)]
        rw [ih]
        have hlast : (x :: y :: u).getLastD (0, 0) = (y :: u).getLastD (0, 0) := by
          rw [List.getLastD_cons]
          exact getLastD_congr (y :: u) (by simp) x (0, 0)
        rw [hlast]

/-- fleet_shard_reward performs the strictly-above lookup at every wave. -/
theorem fleet_shard_reward_eq_first_above (sim : Simulation) (wave : ℕ) :
    fleet_shard_reward sim wave = fleet_shard_first_above wave := by
  unfold fleet_shard_reward fleet_shard_first_above
  exact congrArg Prod.snd (bisect_clamped_eq_find_above wave
    FLEET_MODULE_SHARD_DROP_TABLE (by decide) (by decide))

/-- The boss and recovery-package part of calculate_modules (everything but
the fleet contribution). -/
def non_fleet_modules (sim : Simulation) (events : Events) : ℚ :=
  let common_modules₀ := events.enemies.boss * BOSS_COMMON_MODULE_DROP_CHANCE
  let common_modules :=
    match sim.recovery_package with
    | none => common_modules₀
    | some l =>
        let package_modules :=
          events.recovery_packages *
            RECOVERY_PACKAGE_CHANCE_MASTERY_TABLE.getD l.val 0
        common_modules₀ + wave_skip_bonus_lerp events package_modules 0
  common_modules * COMMON_MODULE_VALUE +
    events.enemies.boss * RARE_MODULE_DROP_CHANCE * RARE_MODULE_VALUE

/-- calculate_modules splits into the non-fleet part plus the fleet
contribution through the strictly-above table lookup. -/
theorem calculate_modules_split (sim : Simulation) (events : Events) :
    calculate_modules sim events =
      non_fleet_modules sim events +
        events.fleet_enemy_count * FLEET_MODULE_SHARD_DROP_CHANCE *
          fleet_shard_first_above events.wave := by
  unfold calculate_modules non_fleet_modules
  rw [fleet_shard_reward_eq_first_above]

/-- C5 (amended): the fleet contribution of calculate_modules is the fleet
spawn count times the fleet module-drop chance times the shard value of the
first table entry with threshold strictly greater than the wave (clamped to
the last entry), not of the smallest threshold at least the wave. -/
theorem c5_fleet_module_contribution (sim : Simulation) (events : Events) :
    calculate_modules sim events =
      non_fleet_modules sim events +
        events.fleet_enemy_count * FLEET_MODULE_SHARD_DROP_CHANCE *
          fleet_shard_first_above events.wave :=
  calculate_modules_split sim events

/-- The Simulation of the C5 counterexample: tier 18, everything else
default. -/
def c5_sim : Simulation := { tier := 18 }

/-- The Events of the C5 counterexample: wave 250 with one fleet spawn of
each subtype and no boss. -/
def c5_events : Events :=
  { Events.init with
      wave := 250,
      enemies := { Events.init.enemies with
                     saboteur := 1, commander := 1, overcharge := 1 } }

/-- Counterexample to C5 as stated: at wave 250 (an exact table threshold)
with three fleet spawns and no other module source, calculate_modules pays
the next row's shard value 7 (total 21/5), not the claimed smallest-threshold
row value 6 (total 18/5). -/
theorem c5_counterexample :
    non_fleet_modules c5_sim c5_events = 0 ∧
    calculate_modules c5_sim c5_events = 21/5 ∧
    c5_events.fleet_enemy_count * FLEET_MODULE_SHARD_DROP_CHANCE *
        fleet_shard_smallest_ge c5_events.wave = 18/5 ∧
    calculate_modules c5_sim c5_events ≠
      c5_events.fleet_enemy_count * FLEET_MODULE_SHARD_DROP_CHANCE *
        fleet_shard_smallest_ge c5_events.wave := by
  have h₁ : non_fleet_modules c5_sim c5_events = 0 := by
    simp [non_fleet_modules, c5_sim, c5_events, Events.init]
  have hwave : c5_events.wave = 250 := rfl
  have hcnt : c5_events.fleet_enemy_count = 3 := by
    norm_num [Events.fleet_enemy_count, c5_events, Events.init]
  have hfa : fleet_shard_first_above 250 = 7 := rfl
  have hge : fleet_shard_smallest_ge (250 : ℕ) = 6 := rfl
  have h₂ : calculate_modules c5_sim c5_events = 21/5 := by
    rw [calculate_modules_split, h₁, hwave, hcnt, hfa]
    norm_num [FLEET_MODULE_SHARD_DROP_CHANCE]
  have h₃ : c5_events.fleet_enemy_count * FLEET_MODULE_SHARD_DROP_CHANCE *
      fleet_shard_smallest_ge c5_events.wave = 18/5 := by
    rw [hwave, hcnt, hge]
    norm_num [FLEET_MODULE_SHARD_DROP_CHANCE]
  refine ⟨h₁, h₂, h₃, ?_⟩
  rw [h₂, h₃]
  norm_num

/-! ## Claim C7: intro-phase forcing and reward degradation -/

/-- C7: during the intro phase, a wave that is neither wave 1 nor a multiple
of 10 is forced fully skipped with no boss, wave 1 and multiples of 10 are
forced unskipped with a guaranteed boss, and the per-wave contribution to
cumulative Rewards keeps only 20 percent of the computed elite-cell yield,
with coins, reroll shards and module shards all 0. -/
theorem c7_intro_forcing (sim : Simulation) (est : PerkWaveEstimator)
    (st : RunState) (perks : Perks) (wave : ℕ) :
    ((intro_events sim perks wave).wave_skip =
      if wave = 1 ∨ wave % 10 = 0 then 0 else 1) ∧
    ((intro_events sim perks wave).enemies.boss =
      if wave = 1 ∨ wave % 10 = 0 then 1 else 0) ∧
    ((introStep sim est st wave).2.cumulative_rewards =
      st.cumulative_rewards.add
        ⟨0, calculate_cells sim
              (intro_events sim (est.estimate sim wave st.perks) wave)
              st.previous_rewards * (2/10), 0, 0⟩) := by
  refine ⟨?_, ?_, rfl⟩ <;>
    by_cases h : wave = 1 ∨ wave % 10 = 0 <;> simp [intro_events, h]

/-! ## Claim C1: the run for max_waves 0 -/

/-- foldSteps yields exactly one snapshot per input wave. -/
theorem foldSteps_snd_length (step : RunState → ℕ → RunState × SimulationWaveResult)
    (st : RunState) (ws : List ℕ) :
    ((foldSteps step st ws).2).length = ws.length := by
  induction ws generalizing st with
  | nil => rfl
  | cons w ws ih => simp [foldSteps, ih]

/-- The snapshot list of simulate_run has length
1 + (max_intro_wave − 1) + 1 + (max_waves − max_intro_wave). -/
theorem simulate_run_length (sim : Simulation) :
    (simulate_run sim).length =
      1 + (max_intro_wave sim - 1) + 1 + (sim.max_waves - max_intro_wave sim) := by
  simp [simulate_run, foldSteps_snd_length, List.length_range']
  omega

/-- C1 (amended): with tier 1, max_waves 0 and every mastery locked,
simulate_run still walks the whole intro sprint: it produces 101 snapshots
(the wave-0 snapshot, intro waves 1..99 and the transition wave 100), the
first of which is at elapsed time 0 with all four Rewards fields 0. -/
theorem c1_locked_tier1_run :
    (simulate_run locked_tier1_sim).length = 101 ∧
    (simulate_run locked_tier1_sim).head? =
      some ⟨0, 0, Events.init, Rewards.init⟩ := by
  constructor
  · rw [simulate_run_length]
    rfl
  · rfl

/-- Counterexample to C1 as stated: the run does not consist of exactly one
snapshot. -/
theorem c1_counterexample : (simulate_run locked_tier1_sim).length ≠ 1 := by
  rw [simulate_run_length]
  decide

/-! ## Claim C9: estimator indexing safety -/

/-- perk_count_at_wave always lies in [0, 50], the total quantity of the
three phase bands, for every configuration, perk state and wave. -/
theorem perk_count_at_wave_bounds (sim : Simulation) (perks : Perks)
    (wave : ℕ) :
    0 ≤ perk_count_at_wave sim perks wave ∧
      perk_count_at_wave sim perks wave ≤ 50 := by
  have hw : (0 : ℚ) ≤ (wave : ℚ) := by positivity
  set b := perks.pwr_bonus with hb
  simp only [perk_count_at_wave, perk_count_bands, perk_waves_required, ← hb]
  norm_num
  split_ifs with h1 h2 h3
  · -- wave < 20 * (175 b): the first band, b must be positive
    have hbpos : 0 < b := by nlinarith
    constructor
    · positivity
    · have : (wave : ℚ) / (175 * b) < 20 := by
        rw [div_lt_iff (by positivity)]
        nlinarith
      linarith
  · -- second band
    have hbpos : 0 < b := by nlinarith
    have hnum : 0 ≤ (wave : ℚ) - 20 * (175 * b) := by nlinarith
    constructor
    · have : 0 ≤ ((wave : ℚ) - 20 * (175 * b)) / (225 * b) := by positivity
      linarith
    · have : ((wave : ℚ) - 20 * (175 * b)) / (225 * b) < 20 := by
        rw [div_lt_iff (by positivity)]
        nlinarith
      linarith
  · -- third band
    have hbpos : 0 < b := by nlinarith
    have hnum : 0 ≤ (wave : ℚ) - (20 * (175 * b) + 20 * (225 * b)) := by nlinarith
    constructor
    · have : 0 ≤ ((wave : ℚ) - (20 * (175 * b) + 20 * (225 * b))) / (275 * b) := by
        positivity
      linarith
    · have : ((wave : ℚ) - (20 * (175 * b) + 20 * (225 * b))) / (275 * b) < 10 := by
        rw [div_lt_iff (by positivity)]
        nlinarith
      linarith
  · norm_num

/-- Both interpolation endpoints of average index safely whenever the count
is non-negative and below the list length plus one. -/
theorem averageInBounds_of (est : PerkWaveEstimator) (pc : ℚ)
    (hne : est.confidences ≠ []) (h0 : 0 ≤ pc)
    (hlt : pc < est.confidences.length + 1) : est.averageInBounds pc := by
  have hlen : 0 < est.confidences.length := List.length_pos.2 hne
  constructor
  · by_cases h1 : pc < 1
    · exact Or.inl h1
    · refine Or.inr ?_
      have hfl : (0 : ℤ) ≤ ⌊pc - 1⌋ := by
        rw [Int.le_floor]
        push_cast
        linarith
      rw [Int.toNat_lt hfl]
      rw [Int.floor_lt]
      push_cast
      linarith
  · by_cases h2 : (est.confidences.length : ℚ) ≤ pc
    · exact Or.inl ⟨h2, hne⟩
    · refine Or.inr ?_
      have hfl : (0 : ℤ) ≤ ⌊pc⌋ := by
        rw [Int.le_floor]
        push_cast
        linarith
      rw [Int.toNat_lt hfl]
      rw [Int.floor_lt]
      push_cast
      linarith

/-- The precomputed confidence sequence holds one state per possible perk
event: the initial state plus 79 steps. -/
theorem run_estimator_length : run_estimator.confidences.length = 80 := by
  simp [run_estimator, active_perks_confidence_sequence]

/-- Every average call of the estimate loop over the precomputed run
estimator is in bounds, for any fuel, starting count and perk state. -/
theorem estimateSafeGo_run_estimator (sim : Simulation) (wave : ℕ) :
    ∀ (fuel : ℕ) (pc : ℚ) (pk : Perks),
      PerkWaveEstimator.estimateSafeGo run_estimator sim wave fuel pc pk := by
  intro fuel
  induction fuel with
  | zero => intro pc pk; trivial
  | succ n ih =>
      intro pc pk
      simp only [PerkWaveEstimator.estimateSafeGo]
      split_ifs with h
      · refine ⟨?_, ih _ _⟩
        have hb := perk_count_at_wave_bounds sim pk wave
        refine averageInBounds_of _ _ ?_ hb.1 ?_
        · intro hnil
          have := run_estimator_length
          rw [hnil] at this
          simp at this
        · rw [run_estimator_length]
          have := hb.2
          push_cast
          linarith

/-- C9 (amended): lower returns the initial state for counts below 1 and
higher clamps to the last precomputed state for counts at or past the end of
the list; average indexes in bounds for every non-negative count below the
list length plus one (lower is unclamped above, so larger counts do index out
of bounds), and estimate over the run's 80-state precomputed estimator never
indexes out of bounds because perk_count_at_wave never exceeds 50. -/
theorem c9_estimator_safety (est : PerkWaveEstimator) (pc : ℚ)
    (hne : est.confidences ≠ []) (sim : Simulation) (wave : ℕ) (pk : Perks)
    (fuel : ℕ) :
    (pc < 1 → est.lower pc = PerksConfidence.init) ∧
    ((est.confidences.length : ℚ) ≤ pc →
      est.higher pc = est.confidences.getLastD PerksConfidence.init) ∧
    (0 ≤ pc → pc < est.confidences.length + 1 → est.averageInBounds pc) ∧
    PerkWaveEstimator.estimateSafeGo run_estimator sim wave fuel pc pk := by
  refine ⟨?_, ?_, ?_, estimateSafeGo_run_estimator sim wave fuel pc pk⟩
  · intro h
    simp [PerkWaveEstimator.lower, h]
  · intro h
    simp [PerkWaveEstimator.higher, h]
  · intro h0 hlt
    exact averageInBounds_of est pc hne h0 hlt

/-- Witness for C9 at concrete inputs: a one-state estimator with count 1/2
for the guards and bounds, and the run estimator for estimate safety. -/
theorem c9_estimator_safety_witness :
    ((⟨[PerksConfidence.init]⟩ : PerkWaveEstimator).lower (1/2) =
      PerksConfidence.init) ∧
    ((⟨[PerksConfidence.init]⟩ : PerkWaveEstimator).higher 2 =
      [PerksConfidence.init].getLastD PerksConfidence.init) ∧
    (⟨[PerksConfidence.init]⟩ : PerkWaveEstimator).averageInBounds (1/2) ∧
    PerkWaveEstimator.estimateSafeGo run_estimator locked_tier1_sim 1 3 0
      Perks.init := by
  refine ⟨?_, ?_, ?_, ?_⟩
  · exact (c9_estimator_safety ⟨[PerksConfidence.init]⟩ (1/2) (by simp)
      locked_tier1_sim 1 Perks.init 3).1 (by norm_num)
  · exact (c9_estimator_safety ⟨[PerksConfidence.init]⟩ 2 (by simp)
      locked_tier1_sim 1 Perks.init 3).2.1 (by norm_num)
  · exact (c9_estimator_safety ⟨[PerksConfidence.init]⟩ (1/2) (by simp)
      locked_tier1_sim 1 Perks.init 3).2.2.1 (by norm_num) (by norm_num)
  · exact (c9_estimator_safety ⟨[PerksConfidence.init]⟩ 0 (by simp)
      locked_tier1_sim 1 Perks.init 3).2.2.2

/-- Counterexample to C9 as stated: at the non-negative count 100 the run
estimator's average indexes out of bounds — lower has no upper clamp and
floor(100 − 1) = 99 falls outside the 80-state list. -/
theorem c9_counterexample : ¬ run_estimator.averageInBounds 100 := by
  intro h
  rcases h.1 with h1 | h1
  · norm_num at h1
  · rw [run_estimator_length] at h1
    have : ⌊(100 : ℚ) - 1⌋ = 99 := by norm_num
    rw [this] at h1
    norm_num at h1

/-! ## Claim C2: monotonicity of the snapshot sequence -/

/-- Every step function used by simulate_run stamps the snapshot with its
wave index, so foldSteps reproduces the input wave list. -/
theorem foldSteps_snd_map_wave (step : RunState → ℕ → RunState × SimulationWaveResult)
    (hw : ∀ st w, ((step st w).2).wave = w) (st : RunState) (ws : List ℕ) :
    ((foldSteps step st ws).2).map (fun s => s.wave) = ws := by
  induction ws generalizing st with
  | nil => rfl
  | cons w ws ih => simp [foldSteps, hw, ih]

/-- The wave indices of a run: 0, the intro waves, the transition wave and
the regular waves, in order. -/
theorem simulate_run_map_wave (sim : Simulation) :
    (simulate_run sim).map (fun s => s.wave) =
      0 :: (List.range' 1 (max_intro_wave sim - 1) ++
        max_intro_wave sim ::
          List.range' (max_intro_wave sim + 1)
            (sim.max_waves - max_intro_wave sim)) := by
  simp only [simulate_run, List.map_cons, List.map_append,
    foldSteps_snd_map_wave (introStep sim run_estimator) (fun _ _ => rfl),
    foldSteps_snd_map_wave (regularStep sim run_estimator) (fun _ _ => rfl)]
  rfl

/-- The intro cap is at least 1 for every configuration (100 when locked, a
table value of at least 180 otherwise). -/
theorem max_intro_wave_pos (sim : Simulation) : 1 ≤ max_intro_wave sim := by
  unfold max_intro_wave
  cases sim.intro_sprint with
  | none => norm_num
  | some l =>
      show 1 ≤ INTRO_SPRINT_MASTERY_TABLE.getD l.val 100
      revert l
      decide

/-- range' with step 1 is strictly increasing. -/
theorem chain'_lt_range' (s n : ℕ) : List.Chain' (· < ·) (List.range' s n) := by
  cases n with
  | zero => trivial
  | succ m =>
      rw [List.range'_succ]
      show List.Chain (· < ·) s (List.range' (s + 1) m)
      exact List.chain_lt_range' s m (by norm_num)

/-- A forced-skipped intro wave advances elapsed time by exactly zero, both
in the running state and in the emitted snapshot. -/
theorem introStep_skipped_elapsed (sim : Simulation) (est : PerkWaveEstimator)
    (st : RunState) (wave : ℕ) (h : ¬ (wave = 1 ∨ wave % 10 = 0)) :
    (introStep sim est st wave).1.elapsed_time = st.elapsed_time ∧
    (introStep sim est st wave).2.elapsed_time = st.elapsed_time := by
  constructor <;>
    simp [introStep, intro_events, h, WAVE_DURATION, WAVE_COOLDOWN]

/-- C2 (amended): the snapshot sequence of simulate_run is strictly
increasing in wave index for every configuration; it is not strictly
increasing in elapsed time, because a forced-skipped intro wave advances
elapsed time by exactly zero (both in the running state and in the emitted
snapshot). -/
theorem c2_run_monotonicity (sim : Simulation) (est : PerkWaveEstimator)
    (st : RunState) (wave : ℕ) :
    List.Chain' (fun a b => a.wave < b.wave) (simulate_run sim) ∧
    (¬ (wave = 1 ∨ wave % 10 = 0) →
      (introStep sim est st wave).1.elapsed_time = st.elapsed_time ∧
      (introStep sim est st wave).2.elapsed_time = st.elapsed_time) := by
  constructor
  · have hmap := simulate_run_map_wave sim
    have hK := max_intro_wave_pos sim
    have hassemble :
        (0 :: (List.range' 1 (max_intro_wave sim - 1) ++
          max_intro_wave sim ::
            List.range' (max_intro_wave sim + 1)
              (sim.max_waves - max_intro_wave sim))) =
        List.range' 0
          ((sim.max_waves - max_intro_wave sim) + (1 + max_intro_wave sim)) := by
      have h1 : (0 : ℕ) :: List.range' 1 (max_intro_wave sim - 1) =
          List.range' 0 (max_intro_wave sim) := by
        have : max_intro_wave sim = (max_intro_wave sim - 1) + 1 := by omega
        rw [this, List.range'_succ]
        norm_num
      have h2 : (max_intro_wave sim) ::
          List.range' (max_intro_wave sim + 1)
            (sim.max_waves - max_intro_wave sim) =
          List.range' (max_intro_wave sim)
            ((sim.max_waves - max_intro_wave sim) + 1) := by
        rw [List.range'_succ]
      rw [← List.cons_append, h1, h2]
      have happ := List.range'_append 0 (max_intro_wave sim)
        ((sim.max_waves - max_intro_wave sim) + 1) 1
      simp only [one_mul, Nat.zero_add] at happ
      rw [happ]
      congr 1
      omega
    have hchain : List.Chain' (· < ·) ((simulate_run sim).map (fun s => s.wave)) := by
      rw [hmap, hassemble]
      exact chain'_lt_range' _ _
    exact (List.chain'_map (fun s : SimulationWaveResult => s.wave)).1 hchain
  · exact introStep_skipped_elapsed sim est st wave

/-- Witness for C2 at the locked tier-1 configuration and intro wave 2. -/
theorem c2_run_monotonicity_witness :
    List.Chain' (fun a b => a.wave < b.wave) (simulate_run locked_tier1_sim) ∧
    ((introStep locked_tier1_sim run_estimator RunState.start 2).1.elapsed_time =
      RunState.start.elapsed_time ∧
     (introStep locked_tier1_sim run_estimator RunState.start 2).2.elapsed_time =
      RunState.start.elapsed_time) :=
  ⟨(c2_run_monotonicity locked_tier1_sim run_estimator RunState.start 2).1,
   (c2_run_monotonicity locked_tier1_sim run_estimator RunState.start 2).2
     (by decide)⟩

/-- Counterexample to C2 as stated: in the locked tier-1 run the snapshots at
positions 2 and 3 are distinct waves (2 and 3, both forced-skipped intro
waves) with identical elapsed time, so the sequence is not strictly
increasing in elapsed time. -/
theorem c2_counterexample :
    ((simulate_run locked_tier1_sim)[2]?).map (fun s => s.wave) = some 2 ∧
    ((simulate_run locked_tier1_sim)[3]?).map (fun s => s.wave) = some 3 ∧
    ((simulate_run locked_tier1_sim)[2]?).map (fun s => s.elapsed_time) =
      ((simulate_run locked_tier1_sim)[3]?).map (fun s => s.elapsed_time) := by
  have h2 : (simulate_run locked_tier1_sim)[2]? =
      some (introStep locked_tier1_sim run_estimator
        ((introStep locked_tier1_sim run_estimator RunState.start 1).1) 2).2 := rfl
  have h3 : (simulate_run locked_tier1_sim)[3]? =
      some (introStep locked_tier1_sim run_estimator
        ((introStep locked_tier1_sim run_estimator
          ((introStep locked_tier1_sim run_estimator RunState.start 1).1) 2).1)
        3).2 := rfl
  refine ⟨?_, ?_, ?_⟩
  · rw [h2]; rfl
  · rw [h3]; rfl
  · rw [h2, h3]
    have hskip := introStep_skipped_elapsed locked_tier1_sim run_estimator
      ((introStep locked_tier1_sim run_estimator
        ((introStep locked_tier1_sim run_estimator RunState.start 1).1) 2).1)
      3 (by decide)
    simp only [Option.map_some']
    rw [hskip.2]
    rfl

/-! ## Claim C3: perk-confidence invariants -/

/-- Every PerkOptions value built by the engine keeps the full ALL_PERKS key
list in order. -/
def keysOk (a : PerkOptions) : Prop := a.options.map Prod.fst = allPerkNames

/-- Every perk is a key of the merged perk dictionary. -/
theorem mem_allPerkNames (p : Perk) : p ∈ allPerkNames := by
  revert p
  decide

/-- Reading a table built over a key list at one of its keys. -/
theorem get_mk_map (g : Perk → ℚ) (q : Perk) :
    ∀ l : List Perk, q ∈ l →
      (PerkOptions.mk (l.map (fun p => (p, g p)))).get q = g q
  | [], hq => absurd hq (List.not_mem_nil q)
  | p :: l, hq => by
    by_cases h : p = q
    · subst h
      simp [PerkOptions.get, List.find?]
    · have hq' : q ∈ l := by
        rcases List.mem_cons.1 hq with h' | h'
        · exact absurd h'.symm h
        · exact h'
      have ih := get_mk_map g q l hq'
      simp only [PerkOptions.get, List.map_cons, List.find?] at ih ⊢
      simp only [h, decide_eq_true_eq, if_neg]
      simpa using ih

/-- The key list survives building a table over allPerkNames. -/
theorem keysOk_mk_map (g : Perk → ℚ) :
    keysOk (PerkOptions.mk (allPerkNames.map (fun p => (p, g p)))) := by
  simp [keysOk, Function.comp_def]

/-- The key list survives a value-only map. -/
theorem keysOk_map_values (a : PerkOptions) (f : Perk × ℚ → ℚ)
    (h : keysOk a) : keysOk ⟨a.options.map (fun e => (e.1, f e))⟩ := by
  simpa [keysOk, Function.comp_def] using h

/-- The key list survives inorm. -/
theorem keysOk_inorm (a : PerkOptions) (h : keysOk a) : keysOk a.inorm := by
  unfold PerkOptions.inorm
  split_ifs
  · exact h
  · exact keysOk_map_values a _ h

/-- The key list survives scalar multiplication. -/
theorem keysOk_smul (a : PerkOptions) (f : ℚ) (h : keysOk a) :
    keysOk (a.smul f) :=
  keysOk_map_values a _ h

/-- Keys of a pointwise zip of two equally-keyed tables. -/
theorem zipWith_keys (g : ℚ → ℚ → ℚ) :
    ∀ la lb : List (Perk × ℚ), la.map Prod.fst = lb.map Prod.fst →
      (List.zipWith (fun x y => (x.1, g x.2 y.2)) la lb).map Prod.fst =
        la.map Prod.fst
  | [], lb, _ => by simp
  | x :: la, [], h => by simp at h
  | x :: la, y :: lb, h => by
    simp only [List.map_cons, List.cons.injEq] at h
    simp [zipWith_keys g la lb h.2]

/-- The key list survives addition. -/
theorem keysOk_add (a b : PerkOptions) (ha : keysOk a) (hb : keysOk b) :
    keysOk (a.add b) := by
  unfold keysOk PerkOptions.add
  rw [zipWith_keys _ a.options b.options (ha.trans hb.symm)]
  exact ha

/-- Reading a value-only map whose function preserves keys. -/
theorem get_map_values (a : PerkOptions) (f : Perk × ℚ → ℚ) (q : Perk) :
    (PerkOptions.mk (a.options.map (fun e => (e.1, f e)))).get q =
      ((a.options.find? (fun e => e.1 = q)).map f).getD 0 := by
  unfold PerkOptions.get
  rw [List.find?_map]
  have hpred : (fun e => decide (e.1 = q)) ∘ (fun e : Perk × ℚ => (e.1, f e)) =
      fun e : Perk × ℚ => decide (e.1 = q) := rfl
  rw [hpred]
  cases a.options.find? (fun e => e.1 = q) <;> rfl

/-- inorm entrywise: each value is divided by the total unless it is zero. -/
theorem get_inorm (a : PerkOptions) (q : Perk) :
    a.inorm.get q = if a.total = 0 then a.get q else a.get q / a.total := by
  unfold PerkOptions.inorm
  split_ifs with h
  · rfl
  · rw [get_map_values]
    unfold PerkOptions.get
    cases a.options.find? (fun e => e.1 = q) with
    | none => simp
    | some e => rfl

/-- Scalar multiplication entrywise. -/
theorem get_smul (a : PerkOptions) (f : ℚ) (q : Perk) :
    (a.smul f).get q = a.get q * f := by
  unfold PerkOptions.smul
  rw [get_map_values]
  unfold PerkOptions.get
  cases a.options.find? (fun e => e.1 = q) with
  | none => simp
  | some e => rfl

/-- Addition entrywise, for equally-keyed tables. -/
theorem get_add (q : Perk) :
    ∀ la lb : List (Perk × ℚ), la.map Prod.fst = lb.map Prod.fst →
      (PerkOptions.mk
        (List.zipWith (fun x y => (x.1, x.2 + y.2)) la lb)).get q =
        (PerkOptions.mk la).get q + (PerkOptions.mk lb).get q
  | [], [], _ => by simp [PerkOptions.get, List.find?]
  | [], y :: lb, h => by simp at h
  | x :: la, [], h => by simp at h
  | x :: la, y :: lb, h => by
    simp only [List.map_cons, List.cons.injEq] at h
    by_cases hx : x.1 = q
    · simp [PerkOptions.get, List.find?, hx, h.1 ▸ hx]
    · have hy : ¬ (y.1 = q) := h.1 ▸ hx
      have ih := get_add q la lb h.2
      simp only [PerkOptions.get, List.find?, List.zipWith_cons_cons] at ih ⊢
      simp only [hx, hy, decide_eq_true_eq, if_neg]
      simpa using ih

/-- Addition entrywise on keysOk operands. -/
theorem get_add' (a b : PerkOptions) (ha : keysOk a) (hb : keysOk b)
    (q : Perk) : (a.add b).get q = a.get q + b.get q :=
  get_add q a.options b.options (ha.trans hb.symm)

/-- The category chances keep the full key list. -/
theorem keysOk_cat (o : PerkOptions) (conf : PerksConfidence)
    (cat : List (Perk × ℕ)) (factor : ℚ) :
    keysOk (perk_category_option_chances o conf cat factor) :=
  keysOk_smul _ _ (keysOk_inorm _ (keysOk_mk_map _))

/-- The per-slot option chances keep the full key list. -/
theorem keysOk_poc (o : PerkOptions) (conf : PerksConfidence) :
    keysOk (perk_option_chances o conf) :=
  keysOk_inorm _ (keysOk_add _ _
    (keysOk_add _ _ (keysOk_cat _ _ _ _) (keysOk_cat _ _ _ _))
    (keysOk_cat _ _ _ _))

/-- A category vector entry vanishes when its unnormalized chance vanishes. -/
theorem cat_get_zero (o : PerkOptions) (conf : PerksConfidence)
    (cat : List (Perk × ℕ)) (factor : ℚ) (q : Perk)
    (hz : (if ((cat.map Prod.fst).contains q ∧ ¬ PERK_BANS.contains q : Prop)
        then (1 - o.get q) * (1 - (conf.get q).getLastD 0) else 0) = 0) :
    (perk_category_option_chances o conf cat factor).get q = 0 := by
  unfold perk_category_option_chances
  rw [get_smul, get_inorm, get_mk_map _ _ _ (mem_allPerkNames q), hz]
  split_ifs <;> simp

/-- The standard-category vector entry of a perk already surely offered is
zero. -/
theorem cat_get_offered_zero (o : PerkOptions) (conf : PerksConfidence)
    (cat : List (Perk × ℕ)) (factor : ℚ) (q : Perk) (h : o.get q = 1) :
    (perk_category_option_chances o conf cat factor).get q = 0 := by
  apply cat_get_zero
  rw [h]
  split_ifs <;> simp

/-- The per-slot option chances of a perk already surely offered are zero. -/
theorem poc_get_offered_zero (o : PerkOptions) (conf : PerksConfidence)
    (q : Perk) (h : o.get q = 1) : (perk_option_chances o conf).get q = 0 := by
  unfold perk_option_chances
  rw [get_inorm,
    get_add' _ _ (keysOk_add _ _ (keysOk_cat _ _ _ _) (keysOk_cat _ _ _ _))
      (keysOk_cat _ _ _ _),
    get_add' _ _ (keysOk_cat _ _ _ _) (keysOk_cat _ _ _ _),
    cat_get_offered_zero _ _ _ _ _ h, cat_get_offered_zero _ _ _ _ _ h,
    cat_get_offered_zero _ _ _ _ _ h]
  split_ifs <;> simp

/-- Slot accumulation keeps a surely-offered perk at chance exactly 1. -/
theorem slots_get_offered (conf : PerksConfidence) (q : Perk) :
    ∀ (n : ℕ) (o : PerkOptions), keysOk o → o.get q = 1 →
      (perk_option_slots conf n o).get q = 1 ∧
        keysOk (perk_option_slots conf n o)
  | 0, o, hk, h1 => ⟨h1, hk⟩
  | n + 1, o, hk, h1 => by
    have hadd : (o.add (perk_option_chances o conf)).get q = 1 := by
      rw [get_add' _ _ hk (keysOk_poc _ _), poc_get_offered_zero _ _ _ h1, h1,
        add_zero]
    exact slots_get_offered conf q n _ (keysOk_add _ _ hk (keysOk_poc _ _)) hadd

/-- The forced first option slot marks the first perk choice with chance 1. -/
theorem set_chances_init_get :
    (perk_option_set_chances PerksConfidence.init).get Perk.std_pwr = 1 ∧
      keysOk (perk_option_set_chances PerksConfidence.init) := by
  unfold perk_option_set_chances
  have h0 : PerksConfidence.init.count = 0 := rfl
  rw [if_pos h0]
  exact slots_get_offered PerksConfidence.init Perk.std_pwr
    (perk_option_quantity - 1) _ (keysOk_mk_map _)
    (by rw [get_mk_map _ _ _ (mem_allPerkNames _)]; simp [FIRST_PERK_CHOICE])

/-- One priority-discount step entrywise. -/
theorem get_discount_step (o : PerkOptions) (removed : List Perk) (hc : ℚ)
    (q : Perk) :
    (PerkOptions.mk (o.options.map (fun e =>
        if removed.contains e.1 then e else (e.1, e.2 * (1 - hc))))).get q =
      if removed.contains q then o.get q else o.get q * (1 - hc) := by
  have hfn : (fun e : Perk × ℚ =>
      if removed.contains e.1 then e else (e.1, e.2 * (1 - hc))) =
      (fun e : Perk × ℚ =>
        (e.1, if removed.contains e.1 then e.2 else e.2 * (1 - hc))) := by
    funext e
    split_ifs <;> rfl
  rw [hfn, get_map_values]
  unfold PerkOptions.get
  cases hfind : o.options.find? (fun e => e.1 = q) with
  | none => split_ifs <;> simp
  | some e =>
      have he : e.1 = q := by simpa using List.find?_some hfind
      simp [he]

/-- One priority-discount step keeps the key list. -/
theorem keysOk_discount_step (o : PerkOptions) (removed : List Perk) (hc : ℚ)
    (hk : keysOk o) :
    keysOk (PerkOptions.mk (o.options.map (fun e =>
      if removed.contains e.1 then e else (e.1, e.2 * (1 - hc))))) := by
  have hfn : (fun e : Perk × ℚ =>
      if removed.contains e.1 then e else (e.1, e.2 * (1 - hc))) =
      (fun e : Perk × ℚ =>
        (e.1, if removed.contains e.1 then e.2 else e.2 * (1 - hc))) := by
    funext e
    split_ifs <;> rfl
  rw [hfn]
  exact keysOk_map_values o _ hk

/-- Priority resolution keeps the key list. -/
theorem keysOk_priority :
    ∀ (hs removed : List Perk) (o : PerkOptions), keysOk o →
      keysOk (priority_discount removed hs o)
  | [], _, _, hk => hk
  | h :: hs, removed, o, hk =>
      keysOk_priority hs _ _ (keysOk_discount_step o _ _ hk)

/-- Priority resolution never touches an already-removed perk. -/
theorem priority_get_removed :
    ∀ (hs removed : List Perk) (o : PerkOptions) (q : Perk), q ∈ removed →
      (priority_discount removed hs o).get q = o.get q
  | [], _, _, _, _ => rfl
  | h :: hs, removed, o, q, hq => by
    unfold priority_discount
    rw [priority_get_removed hs _ _ q (List.mem_cons_of_mem h hq),
      get_discount_step]
    have : (h :: removed).contains q := by
      simp [List.mem_cons_of_mem h hq]
    rw [if_pos this]

/-- Priority resolution maps zero chances to zero chances. -/
theorem priority_get_zero :
    ∀ (hs removed : List Perk) (o : PerkOptions) (q : Perk), o.get q = 0 →
      (priority_discount removed hs o).get q = 0
  | [], _, _, _, hz => hz
  | h :: hs, removed, o, q, hz => by
    unfold priority_discount
    apply priority_get_zero hs
    rw [get_discount_step, hz]
    split_ifs <;> simp

/-- The total of a keysOk table is the sum of its per-perk reads. -/
theorem map_get_keys :
    ∀ l : List (Perk × ℚ), (l.map Prod.fst).Nodup →
      (l.map Prod.fst).map (fun q => (PerkOptions.mk l).get q) =
        l.map Prod.snd
  | [], _ => rfl
  | x :: t, hnd => by
    simp only [List.map_cons, List.nodup_cons] at hnd ⊢
    congr 1
    · simp [PerkOptions.get, List.find?]
    · have ih := map_get_keys t hnd.2
      rw [← ih]
      apply List.map_congr_left
      intro q hq
      have hne : ¬ (x.1 = q) := fun h => hnd.1 (h ▸ hq)
      simp only [PerkOptions.get, List.find?, hne, decide_eq_true_eq, if_neg]
      simp [hne]

/-- allPerkNames has no duplicate keys. -/
theorem allPerkNames_nodup : allPerkNames.Nodup := by decide

/-- Total as a sum of reads over the key list. -/
theorem total_eq_sum_gets (a : PerkOptions) (hk : keysOk a) :
    a.total = (allPerkNames.map a.get).sum := by
  unfold PerkOptions.total
  rw [← hk, map_get_keys a.options (by rw [hk]; exact allPerkNames_nodup)]

/-- The selection chances of the very first perk event: the forced first
perk is selected with probability 1 and everything else with probability 0. -/
theorem selection_chances_init_get (q : Perk) :
    (selection_chances PerksConfidence.init).get q =
      if q = Perk.std_pwr then 1 else 0 := by
  have hset := set_chances_init_get
  set O := perk_option_set_chances PerksConfidence.init with hO
  have hppo : PERK_PRIORITY_ORDER = Perk.std_pwr ::
      [Perk.std_game_speed, Perk.to_coin, Perk.uw_gt, Perk.std_coin_bonus,
       Perk.std_freeup_chance] := rfl
  have hpost : ∀ r : Perk, (priority_discount [] PERK_PRIORITY_ORDER O).get r =
      if r = Perk.std_pwr then 1 else 0 := by
    intro r
    rw [hppo]
    unfold priority_discount
    by_cases hr : r = Perk.std_pwr
    · subst hr
      rw [priority_get_removed _ _ _ _ (by simp), get_discount_step]
      simp [hset.1]
    · rw [priority_get_zero]
      · simp [hr]
      · rw [get_discount_step, hset.1]
        have : ¬ ((Perk.std_pwr :: []).contains r) := by simp [hr]
        rw [if_neg this]
        ring
  have hkpost : keysOk (priority_discount [] PERK_PRIORITY_ORDER O) :=
    keysOk_priority _ _ _ hset.2
  have htotal : (priority_discount [] PERK_PRIORITY_ORDER O).total = 1 := by
    rw [total_eq_sum_gets _ hkpost]
    have hfn : (priority_discount [] PERK_PRIORITY_ORDER O).get =
        (fun q : Perk => if q = Perk.std_pwr then 1 else 0) := funext hpost
    rw [hfn]
    simp [allPerkNames, ALL_PERKS, STANDARD_PERKS, ULTIMATE_PERKS,
      TRADEOFF_PERKS]
  unfold selection_chances
  rw [get_inorm, htotal]
  norm_num
  exact hpost q

/-- One application of active_perks_confidence to the initial all-zero state
yields the sequence [1, 0, 0] for the forced first perk — confidence 1 of
being granted at least once, 0 of being granted at least twice — which is
not monotonically non-decreasing in the slot index. -/
theorem first_event_confidence_slots :
    (active_perks_confidence PerksConfidence.init).get Perk.std_pwr =
      [1, 0, 0] ∧
    ¬ List.Chain' (· ≤ ·)
      ((active_perks_confidence PerksConfidence.init).get Perk.std_pwr) := by
  have hval : (active_perks_confidence PerksConfidence.init).get Perk.std_pwr =
      [1, 0, 0] := by
    unfold active_perks_confidence PerksConfidence.get
    simp only [selection_chances_init_get]
    simp [PerksConfidence.init, allPerkNames, ALL_PERKS, STANDARD_PERKS,
      ULTIMATE_PERKS, TRADEOFF_PERKS, List.find?, perkQty, bump_confidences,
      List.replicate]
  refine ⟨hval, ?_⟩
  rw [hval]
  intro hchain
  rcases hchain with _ | ⟨h, _⟩
  norm_num at h

/-! ## Claim C8: truncate / extend on equal-length batches -/

/-- Folding min over a constant list is the identity. -/
theorem foldl_min_const (T : ℚ) :
    ∀ l : List ℚ, (∀ x ∈ l, x = T) → l.foldl min T = T
  | [], _ => rfl
  | x :: t, h => by
    have hx : x = T := h x (by simp)
    subst hx
    rw [List.foldl_cons, min_self]
    exact foldl_min_const x t (fun y hy => h y (List.mem_cons_of_mem x hy))

/-- Folding max over a constant list is the identity. -/
theorem foldl_max_const (T : ℚ) :
    ∀ l : List ℚ, (∀ x ∈ l, x = T) → l.foldl max T = T
  | [], _ => rfl
  | x :: t, h => by
    have hx : x = T := h x (by simp)
    subst hx
    rw [List.foldl_cons, max_self]
    exact foldl_max_const x t (fun y hy => h y (List.mem_cons_of_mem x hy))

/-- The minimum of a nonempty constant list. -/
theorem min?_const (T : ℚ) (l : List ℚ) (hne : l ≠ [])
    (h : ∀ x ∈ l, x = T) : l.min? = some T := by
  cases l with
  | nil => exact absurd rfl hne
  | cons x t =>
      have hx : x = T := h x (by simp)
      subst hx
      show some (t.foldl min x) = some x
      rw [foldl_min_const x t (fun y hy => h y (List.mem_cons_of_mem x hy))]

/-- The maximum of a nonempty constant list. -/
theorem max?_const (T : ℚ) (l : List ℚ) (hne : l ≠ [])
    (h : ∀ x ∈ l, x = T) : l.max? = some T := by
  cases l with
  | nil => exact absurd rfl hne
  | cons x t =>
      have hx : x = T := h x (by simp)
      subst hx
      show some (t.foldl max x) = some x
      rw [foldl_max_const x t (fun y hy => h y (List.mem_cons_of_mem x hy))]

/-- In an elapsed-sorted snapshot list every elapsed time is at most the
final one. -/
theorem elapsed_le_last :
    ∀ l : List SimulationWaveResult,
      List.Chain' (fun a b => a.elapsed_time ≤ b.elapsed_time) l →
      ∀ x ∈ l, x.elapsed_time ≤ (l.getLastD defaultSnap).elapsed_time
  | [], _, x, hx => absurd hx (List.not_mem_nil x)
  | [a], _, x, hx => by
    rcases List.mem_singleton.1 hx with rfl
    simp [List.getLastD]
  | a :: b :: t, hch, x, hx => by
    have hab : a.elapsed_time ≤ b.elapsed_time := (List.chain'_cons.1 hch).1
    have htail := (List.chain'_cons.1 hch).2
    have hlast : ((a :: b :: t).getLastD defaultSnap) =
        ((b :: t).getLastD defaultSnap) := by
      rw [List.getLastD_cons]
      exact getLastD_congr (b :: t) (by simp) a defaultSnap
    rw [hlast]
    rcases List.mem_cons.1 hx with rfl | hx'
    · exact le_trans hab (elapsed_le_last (b :: t) htail b (by simp))
    · exact elapsed_le_last (b :: t) htail x hx'

/-- C8: on a batch in which every non-skipped run ends at the same positive
final elapsed time, both truncate_sims_to_shortest and extend_sims leave
every run's snapshot sequence value-equal to the input. -/
theorem c8_truncate_extend_identity
    (batch : List (Simulation × Option SimulationRunResult)) (T : ℚ)
    (hT : 0 < T) (hne : ∃ sr ∈ batch, sr.2.isSome)
    (hall : ∀ sr ∈ batch, ∀ r, sr.2 = some r →
      r.wave_results ≠ [] ∧
      List.Chain' (fun a b => a.elapsed_time ≤ b.elapsed_time) r.wave_results ∧
      lastElapsed r = T) :
    (truncate_sims_to_shortest batch).map
        (fun sr => sr.2.map (fun r => r.wave_results)) =
      batch.map (fun sr => sr.2.map (fun r => r.wave_results)) ∧
    (extend_sims batch).map
        (fun sr => sr.2.map (fun r => r.wave_results)) =
      batch.map (fun sr => sr.2.map (fun r => r.wave_results)) := by
  have hconst : ∀ x ∈ batch.filterMap (fun sr => sr.2.map lastElapsed), x = T := by
    intro x hx
    rcases List.mem_filterMap.1 hx with ⟨sr, hsr, hmap⟩
    rcases Option.map_eq_some'.1 hmap with ⟨r, hr, hlast⟩
    rw [← hlast]
    exact (hall sr hsr r hr).2.2
  have hnonempty : batch.filterMap (fun sr => sr.2.map lastElapsed) ≠ [] := by
    rcases hne with ⟨sr, hsr, hsome⟩
    rcases Option.isSome_iff_exists.1 hsome with ⟨r, hr⟩
    intro hnil
    have : lastElapsed r ∈ batch.filterMap (fun sr => sr.2.map lastElapsed) :=
      List.mem_filterMap.2 ⟨sr, hsr, by rw [hr]; rfl⟩
    rw [hnil] at this
    exact List.not_mem_nil _ this
  have hmins : (batch.filterMap (fun sr => sr.2.map lastElapsed)).min? = some T :=
    min?_const T _ hnonempty hconst
  have hmaxs : (batch.filterMap (fun sr => sr.2.map lastElapsed)).max? = some T :=
    max?_const T _ hnonempty hconst
  constructor
  · unfold truncate_sims_to_shortest
    rw [hmins]
    rw [List.map_map]
    apply List.map_congr_left
    intro sr hsr
    cases h : sr.2 with
    | none => simp [h]
    | some r =>
        rcases hall sr hsr r h with ⟨hne', hch, hlast⟩
        have hcount : r.wave_results.countP
            (fun x => x.elapsed_time ≤ (some T).getD 0) =
            r.wave_results.length := by
          rw [List.countP_eq_length]
          intro x hx
          simp only [Option.getD_some, decide_eq_true_eq]
          have := elapsed_le_last r.wave_results hch x hx
          rw [← hlast]
          exact this
        simp only [Function.comp_def, h]
        rw [hcount, List.take_length]
        rfl
  · unfold extend_sims
    rw [hmaxs]
    rw [List.map_map]
    apply List.map_congr_left
    intro sr hsr
    cases h : sr.2 with
    | none => simp [h]
    | some r =>
        rcases hall sr hsr r h with ⟨hne', hch, hlast⟩
        have hsteps : extend_steps ((some T).getD 0)
            (r.wave_results.getLastD defaultSnap).elapsed_time
            (WAVE_DURATION + WAVE_COOLDOWN) = 0 := by
          unfold extend_steps
          rw [if_pos]
          show (some T).getD 0 ≤ (r.wave_results.getLastD defaultSnap).elapsed_time
          rw [show (r.wave_results.getLastD defaultSnap).elapsed_time = T from hlast]
          simp
        simp only [Function.comp_def, h]
        rw [hsteps]
        simp

/-- The batch of the C8 witness: one run with two snapshots ending at 31. -/
def c8_batch : List (Simulation × Option SimulationRunResult) :=
  [({}, some ⟨[⟨0, 0, Events.init, Rewards.init⟩,
               ⟨1, 31, Events.init, Rewards.init⟩], some 0, none, none⟩)]

/-- Witness for C8 at a concrete one-run batch with final elapsed time 31. -/
theorem c8_truncate_extend_identity_witness :
    ((0 : ℚ) < 31) ∧
    ((truncate_sims_to_shortest c8_batch).map
        (fun sr => sr.2.map (fun r => r.wave_results)) =
      c8_batch.map (fun sr => sr.2.map (fun r => r.wave_results)) ∧
    (extend_sims c8_batch).map
        (fun sr => sr.2.map (fun r => r.wave_results)) =
      c8_batch.map (fun sr => sr.2.map (fun r => r.wave_results))) := by
  refine ⟨by norm_num, ?_⟩
  apply c8_truncate_extend_identity c8_batch 31 (by norm_num)
  · refine ⟨({}, some ⟨[⟨0, 0, Events.init, Rewards.init⟩,
      ⟨1, 31, Events.init, Rewards.init⟩], some 0, none, none⟩), ?_, ?_⟩ <;>
      simp [c8_batch]
  · intro sr hsr r hr
    rcases List.mem_singleton.1 hsr with rfl
    have hre := Option.some.inj hr
    subst hre
    refine ⟨by simp, ?_, rfl⟩
    rw [List.chain'_cons]
    refine ⟨by norm_num, by simp⟩

end MasteryCalc
